import Mathlib

/-!
Verification of the text-statistics tool in `src/.vscode/Main/test55.py`.

The program is embedded shallowly: a text string is a list of Unicode code
points (`PyStr`), `tokenize`, `text_stats` and `print_stats` are translated
function by function, `collections.Counter` becomes an insertion-ordered
association list, and `Counter.most_common` becomes a stable descending
insertion sort followed by `take`.
-/

namespace TextStats

/-- A Python text string, as its list of Unicode code points. -/
abbrev PyStr := List Nat

/-- Code-point list of a Lean string literal. -/
def str (s : String) : PyStr := s.data.map Char.toNat

/-- Whitespace predicate of Python's argument-less `str.split`
(`Py_UNICODE_ISSPACE`): tab through carriage return, the four information
separators, space, next line, no-break space, ogham space mark, the Unicode
spaces U+2000..U+200A, line and paragraph separator, narrow no-break space,
medium mathematical space, and ideographic space. -/
def isPySpace (c : Nat) : Bool :=
  (9 ≤ c && c ≤ 13) || (28 ≤ c && c ≤ 32) || c == 133 || c == 160 ||
  c == 5760 || (8192 ≤ c && c ≤ 8202) || c == 8232 || c == 8233 ||
  c == 8239 || c == 8287 || c == 12288

/-- The fixed punctuation set passed to `str.strip` in `tokenize`:
`.,!?:;"'()[]{}<>`. -/
def pyPunct : List Nat := ".,!?:;\x22\x27()[]\x7b\x7d<>".data.map Char.toNat

/-- Membership in the strip set. -/
def isPunct (c : Nat) : Bool := pyPunct.contains c

/-- Worker for `str.split()`: walk the line keeping an accumulator (in
reverse) of the current run of non-whitespace characters, flushing it at
every whitespace character and at the end. -/
def splitWsAux : List Nat → List Nat → List PyStr
  | [], acc => if acc.isEmpty then [] else [acc.reverse]
  | c :: cs, acc =>
    if isPySpace c then
      if acc.isEmpty then splitWsAux cs [] else acc.reverse :: splitWsAux cs []
    else splitWsAux cs (c :: acc)

/-- Python `line.split()`: split on runs of whitespace, producing no empty
pieces. -/
def pySplit (s : PyStr) : List PyStr := splitWsAux s []

/-- A binary search tree from code point to a code-point sequence, used to
hold a Unicode case-mapping table. -/
inductive CaseTree where
  | leaf : CaseTree
  | node : CaseTree → Nat → List Nat → CaseTree → CaseTree

/-- Look up a code point in a `CaseTree`. -/
def CaseTree.find : CaseTree → Nat → Option (List Nat)
  | .leaf, _ => none
  | .node l k vs r, c =>
    if c < k then l.find c else if k < c then r.find c else some vs

/-- Check a property at every entry of a `CaseTree`. -/
def CaseTree.allNodes (p : Nat → List Nat → Bool) : CaseTree → Bool
  | .leaf => true
  | .node l k vs r => p k vs && l.allNodes p && r.allNodes p

/-- A binary search tree of code-point ranges, used to hold a Unicode
character-class table. -/
inductive RangeTree where
  | leaf : RangeTree
  | node : RangeTree → Nat → Nat → RangeTree → RangeTree

/-- Test membership of a code point in the ranges of a `RangeTree`. -/
def RangeTree.mem : RangeTree → Nat → Bool
  | .leaf, _ => false
  | .node l lo hi r, c =>
    if c < lo then l.mem c else if hi < c then r.mem c else true

/-- The Unicode 14.0 lowercase mapping used by CPython's `str.lower`
(`_PyUnicode_ToLowerFull`), as a binary search tree: every code point
whose context-free lowercase mapping differs from itself, except U+03A3
(capital sigma), which `str.lower` handles by context; values are the
mapped code-point sequences (length 1 to 3). -/
def lowerTree : CaseTree :=
  (.node (.node (.node (.node (.node (.node (.node (.node (.node (.node (.node .leaf 65 [97]
  .leaf) 66 [98] .leaf) 67 [99] (.node (.node .leaf 68 [100] .leaf) 69 [101] .leaf)) 70 [102]
  (.node (.node (.node .leaf 71 [103] .leaf) 72 [104] .leaf) 73 [105] (.node (.node .leaf 74
  [106] .leaf) 75 [107] .leaf))) 76 [108] (.node (.node (.node (.node .leaf 77 [109] .leaf) 78
  [110] .leaf) 79 [111] (.node (.node .leaf 80 [112] .leaf) 81 [113] .leaf)) 82 [114] (.node
  (.node (.node .leaf 83 [115] .leaf) 84 [116] .leaf) 85 [117] (.node .leaf 86 [118] .leaf))))
  87 [119] (.node (.node (.node (.node (.node .leaf 88 [120] .leaf) 89 [121] .leaf) 90 [122]
  (.node (.node .leaf 192 [224] .leaf) 193 [225] .leaf)) 194 [226] (.node (.node (.node .leaf
  195 [227] .leaf) 196 [228] .leaf) 197 [229] (.node .leaf 198 [230] .leaf))) 199 [231] (.node
  (.node (.node (.node .leaf 200 [232] .leaf) 201 [233] .leaf) 202 [234] (.node (.node .leaf
  203 [235] .leaf) 204 [236] .leaf)) 205 [237] (.node (.node (.node .leaf 206 [238] .leaf) 207
  [239] .leaf) 208 [240] (.node .leaf 209 [241] .leaf))))) 210 [242] (.node (.node (.node
  (.node (.node (.node .leaf 211 [243] .leaf) 212 [244] .leaf) 213 [245] (.node (.node .leaf
  214 [246] .leaf) 216 [248] .leaf)) 217 [249] (.node (.node (.node .leaf 218 [250] .leaf) 219
  [251] .leaf) 220 [252] (.node (.node .leaf 221 [253] .leaf) 222 [254] .leaf))) 256 [257]
  (.node (.node (.node (.node .leaf 258 [259] .leaf) 260 [261] .leaf) 262 [263] (.node (.node
  .leaf 264 [265] .leaf) 266 [267] .leaf)) 268 [269] (.node (.node (.node .leaf 270 [271]
  .leaf) 272 [273] .leaf) 274 [275] (.node .leaf 276 [277] .leaf)))) 278 [279] (.node (.node
  (.node (.node (.node .leaf 280 [281] .leaf) 282 [283] .leaf) 284 [285] (.node (.node .leaf
  286 [287] .leaf) 288 [289] .leaf)) 290 [291] (.node (.node (.node .leaf 292 [293] .leaf) 294
  [295] .leaf) 296 [297] (.node .leaf 298 [299] .leaf))) 300 [301] (.node (.node (.node (.node
  .leaf 302 [303] .leaf) 304 [105, 775] .leaf) 306 [307] (.node (.node .leaf 308 [309] .leaf)
  310 [311] .leaf)) 313 [314] (.node (.node (.node .leaf 315 [316] .leaf) 317 [318] .leaf) 319
  [320] (.node .leaf 321 [322] .leaf)))))) 323 [324] (.node (.node (.node (.node (.node (.node
  (.node .leaf 325 [326] .leaf) 327 [328] .leaf) 330 [331] (.node (.node .leaf 332 [333] .leaf)
  334 [335] .leaf)) 336 [337] (.node (.node (.node .leaf 338 [339] .leaf) 340 [341] .leaf) 342
  [343] (.node (.node .leaf 344 [345] .leaf) 346 [347] .leaf))) 348 [349] (.node (.node (.node
  (.node .leaf 350 [351] .leaf) 352 [353] .leaf) 354 [355] (.node (.node .leaf 356 [357] .leaf)
  358 [359] .leaf)) 360 [361] (.node (.node (.node .leaf 362 [363] .leaf) 364 [365] .leaf) 366
  [367] (.node .leaf 368 [369] .leaf)))) 370 [371] (.node (.node (.node (.node (.node .leaf 372
  [373] .leaf) 374 [375] .leaf) 376 [255] (.node (.node .leaf 377 [378] .leaf) 379 [380]
  .leaf)) 381 [382] (.node (.node (.node .leaf 385 [595] .leaf) 386 [387] .leaf) 388 [389]
  (.node .leaf 390 [596] .leaf))) 391 [392] (.node (.node (.node (.node .leaf 393 [598] .leaf)
  394 [599] .leaf) 395 [396] (.node (.node .leaf 398 [477] .leaf) 399 [601] .leaf)) 400 [603]
  (.node (.node (.node .leaf 401 [402] .leaf) 403 [608] .leaf) 404 [611] (.node .leaf 406 [617]
  .leaf))))) 407 [616] (.node (.node (.node (.node (.node (.node .leaf 408 [409] .leaf) 412
  [623] .leaf) 413 [626] (.node (.node .leaf 415 [629] .leaf) 416 [417] .leaf)) 418 [419]
  (.node (.node (.node .leaf 420 [421] .leaf) 422 [640] .leaf) 423 [424] (.node (.node .leaf
  425 [643] .leaf) 428 [429] .leaf))) 430 [648] (.node (.node (.node (.node .leaf 431 [432]
  .leaf) 433 [650] .leaf) 434 [651] (.node (.node .leaf 435 [436] .leaf) 437 [438] .leaf)) 439
  [658] (.node (.node (.node .leaf 440 [441] .leaf) 444 [445] .leaf) 452 [454] (.node .leaf 453
  [454] .leaf)))) 455 [457] (.node (.node (.node (.node (.node .leaf 456 [457] .leaf) 458 [460]
  .leaf) 459 [460] (.node (.node .leaf 461 [462] .leaf) 463 [464] .leaf)) 465 [466] (.node
  (.node (.node .leaf 467 [468] .leaf) 469 [470] .leaf) 471 [472] (.node .leaf 473 [474]
  .leaf))) 475 [476] (.node (.node (.node (.node .leaf 478 [479] .leaf) 480 [481] .leaf) 482
  [483] (.node (.node .leaf 484 [485] .leaf) 486 [487] .leaf)) 488 [489] (.node (.node (.node
  .leaf 490 [491] .leaf) 492 [493] .leaf) 494 [495] (.node .leaf 497 [499] .leaf))))))) 498
  [499] (.node (.node (.node (.node (.node (.node (.node (.node .leaf 500 [501] .leaf) 502
  [405] .leaf) 503 [447] (.node (.node .leaf 504 [505] .leaf) 506 [507] .leaf)) 508 [509]
  (.node (.node (.node .leaf 510 [511] .leaf) 512 [513] .leaf) 514 [515] (.node (.node .leaf
  516 [517] .leaf) 518 [519] .leaf))) 520 [521] (.node (.node (.node (.node .leaf 522 [523]
  .leaf) 524 [525] .leaf) 526 [527] (.node (.node .leaf 528 [529] .leaf) 530 [531] .leaf)) 532
  [533] (.node (.node (.node .leaf 534 [535] .leaf) 536 [537] .leaf) 538 [539] (.node .leaf 540
  [541] .leaf)))) 542 [543] (.node (.node (.node (.node (.node .leaf 544 [414] .leaf) 546 [547]
  .leaf) 548 [549] (.node (.node .leaf 550 [551] .leaf) 552 [553] .leaf)) 554 [555] (.node
  (.node (.node .leaf 556 [557] .leaf) 558 [559] .leaf) 560 [561] (.node .leaf 562 [563]
  .leaf))) 570 [11365] (.node (.node (.node (.node .leaf 571 [572] .leaf) 573 [410] .leaf) 574
  [11366] (.node (.node .leaf 577 [578] .leaf) 579 [384] .leaf)) 580 [649] (.node (.node (.node
  .leaf 581 [652] .leaf) 582 [583] .leaf) 584 [585] (.node .leaf 586 [587] .leaf))))) 588 [589]
  (.node (.node (.node (.node (.node (.node .leaf 590 [591] .leaf) 880 [881] .leaf) 882 [883]
  (.node (.node .leaf 886 [887] .leaf) 895 [1011] .leaf)) 902 [940] (.node (.node (.node .leaf
  904 [941] .leaf) 905 [942] .leaf) 906 [943] (.node (.node .leaf 908 [972] .leaf) 910 [973]
  .leaf))) 911 [974] (.node (.node (.node (.node .leaf 913 [945] .leaf) 914 [946] .leaf) 915
  [947] (.node (.node .leaf 916 [948] .leaf) 917 [949] .leaf)) 918 [950] (.node (.node (.node
  .leaf 919 [951] .leaf) 920 [952] .leaf) 921 [953] (.node .leaf 922 [954] .leaf)))) 923 [955]
  (.node (.node (.node (.node (.node .leaf 924 [956] .leaf) 925 [957] .leaf) 926 [958] (.node
  (.node .leaf 927 [959] .leaf) 928 [960] .leaf)) 929 [961] (.node (.node (.node .leaf 932
  [964] .leaf) 933 [965] .leaf) 934 [966] (.node .leaf 935 [967] .leaf))) 936 [968] (.node
  (.node (.node (.node .leaf 937 [969] .leaf) 938 [970] .leaf) 939 [971] (.node (.node .leaf
  975 [983] .leaf) 984 [985] .leaf)) 986 [987] (.node (.node (.node .leaf 988 [989] .leaf) 990
  [991] .leaf) 992 [993] (.node .leaf 994 [995] .leaf)))))) 996 [997] (.node (.node (.node
  (.node (.node (.node (.node .leaf 998 [999] .leaf) 1000 [1001] .leaf) 1002 [1003] (.node
  (.node .leaf 1004 [1005] .leaf) 1006 [1007] .leaf)) 1012 [952] (.node (.node (.node .leaf
  1015 [1016] .leaf) 1017 [1010] .leaf) 1018 [1019] (.node (.node .leaf 1021 [891] .leaf) 1022
  [892] .leaf))) 1023 [893] (.node (.node (.node (.node .leaf 1024 [1104] .leaf) 1025 [1105]
  .leaf) 1026 [1106] (.node (.node .leaf 1027 [1107] .leaf) 1028 [1108] .leaf)) 1029 [1109]
  (.node (.node (.node .leaf 1030 [1110] .leaf) 1031 [1111] .leaf) 1032 [1112] (.node .leaf
  1033 [1113] .leaf)))) 1034 [1114] (.node (.node (.node (.node (.node .leaf 1035 [1115] .leaf)
  1036 [1116] .leaf) 1037 [1117] (.node (.node .leaf 1038 [1118] .leaf) 1039 [1119] .leaf))
  1040 [1072] (.node (.node (.node .leaf 1041 [1073] .leaf) 1042 [1074] .leaf) 1043 [1075]
  (.node .leaf 1044 [1076] .leaf))) 1045 [1077] (.node (.node (.node (.node .leaf 1046 [1078]
  .leaf) 1047 [1079] .leaf) 1048 [1080] (.node (.node .leaf 1049 [1081] .leaf) 1050 [1082]
  .leaf)) 1051 [1083] (.node (.node (.node .leaf 1052 [1084] .leaf) 1053 [1085] .leaf) 1054
  [1086] (.node .leaf 1055 [1087] .leaf))))) 1056 [1088] (.node (.node (.node (.node (.node
  (.node .leaf 1057 [1089] .leaf) 1058 [1090] .leaf) 1059 [1091] (.node (.node .leaf 1060
  [1092] .leaf) 1061 [1093] .leaf)) 1062 [1094] (.node (.node (.node .leaf 1063 [1095] .leaf)
  1064 [1096] .leaf) 1065 [1097] (.node .leaf 1066 [1098] .leaf))) 1067 [1099] (.node (.node
  (.node (.node .leaf 1068 [1100] .leaf) 1069 [1101] .leaf) 1070 [1102] (.node (.node .leaf
  1071 [1103] .leaf) 1120 [1121] .leaf)) 1122 [1123] (.node (.node (.node .leaf 1124 [1125]
  .leaf) 1126 [1127] .leaf) 1128 [1129] (.node .leaf 1130 [1131] .leaf)))) 1132 [1133] (.node
  (.node (.node (.node (.node .leaf 1134 [1135] .leaf) 1136 [1137] .leaf) 1138 [1139] (.node
  (.node .leaf 1140 [1141] .leaf) 1142 [1143] .leaf)) 1144 [1145] (.node (.node (.node .leaf
  1146 [1147] .leaf) 1148 [1149] .leaf) 1150 [1151] (.node .leaf 1152 [1153] .leaf))) 1162
  [1163] (.node (.node (.node (.node .leaf 1164 [1165] .leaf) 1166 [1167] .leaf) 1168 [1169]
  (.node (.node .leaf 1170 [1171] .leaf) 1172 [1173] .leaf)) 1174 [1175] (.node (.node (.node
  .leaf 1176 [1177] .leaf) 1178 [1179] .leaf) 1180 [1181] (.node .leaf 1182 [1183]
  .leaf)))))))) 1184 [1185] (.node (.node (.node (.node (.node (.node (.node (.node (.node
  .leaf 1186 [1187] .leaf) 1188 [1189] .leaf) 1190 [1191] (.node (.node .leaf 1192 [1193]
  .leaf) 1194 [1195] .leaf)) 1196 [1197] (.node (.node (.node .leaf 1198 [1199] .leaf) 1200
  [1201] .leaf) 1202 [1203] (.node (.node .leaf 1204 [1205] .leaf) 1206 [1207] .leaf))) 1208
  [1209] (.node (.node (.node (.node .leaf 1210 [1211] .leaf) 1212 [1213] .leaf) 1214 [1215]
  (.node (.node .leaf 1216 [1231] .leaf) 1217 [1218] .leaf)) 1219 [1220] (.node (.node (.node
  .leaf 1221 [1222] .leaf) 1223 [1224] .leaf) 1225 [1226] (.node .leaf 1227 [1228] .leaf))))
  1229 [1230] (.node (.node (.node (.node (.node .leaf 1232 [1233] .leaf) 1234 [1235] .leaf)
  1236 [1237] (.node (.node .leaf 1238 [1239] .leaf) 1240 [1241] .leaf)) 1242 [1243] (.node
  (.node (.node .leaf 1244 [1245] .leaf) 1246 [1247] .leaf) 1248 [1249] (.node .leaf 1250
  [1251] .leaf))) 1252 [1253] (.node (.node (.node (.node .leaf 1254 [1255] .leaf) 1256 [1257]
  .leaf) 1258 [1259] (.node (.node .leaf 1260 [1261] .leaf) 1262 [1263] .leaf)) 1264 [1265]
  (.node (.node (.node .leaf 1266 [1267] .leaf) 1268 [1269] .leaf) 1270 [1271] (.node .leaf
  1272 [1273] .leaf))))) 1274 [1275] (.node (.node (.node (.node (.node (.node .leaf 1276
  [1277] .leaf) 1278 [1279] .leaf) 1280 [1281] (.node (.node .leaf 1282 [1283] .leaf) 1284
  [1285] .leaf)) 1286 [1287] (.node (.node (.node .leaf 1288 [1289] .leaf) 1290 [1291] .leaf)
  1292 [1293] (.node (.node .leaf 1294 [1295] .leaf) 1296 [1297] .leaf))) 1298 [1299] (.node
  (.node (.node (.node .leaf 1300 [1301] .leaf) 1302 [1303] .leaf) 1304 [1305] (.node (.node
  .leaf 1306 [1307] .leaf) 1308 [1309] .leaf)) 1310 [1311] (.node (.node (.node .leaf 1312
  [1313] .leaf) 1314 [1315] .leaf) 1316 [1317] (.node .leaf 1318 [1319] .leaf)))) 1320 [1321]
  (.node (.node (.node (.node (.node .leaf 1322 [1323] .leaf) 1324 [1325] .leaf) 1326 [1327]
  (.node (.node .leaf 1329 [1377] .leaf) 1330 [1378] .leaf)) 1331 [1379] (.node (.node (.node
  .leaf 1332 [1380] .leaf) 1333 [1381] .leaf) 1334 [1382] (.node .leaf 1335 [1383] .leaf)))
  1336 [1384] (.node (.node (.node (.node .leaf 1337 [1385] .leaf) 1338 [1386] .leaf) 1339
  [1387] (.node (.node .leaf 1340 [1388] .leaf) 1341 [1389] .leaf)) 1342 [1390] (.node (.node
  (.node .leaf 1343 [1391] .leaf) 1344 [1392] .leaf) 1345 [1393] (.node .leaf 1346 [1394]
  .leaf)))))) 1347 [1395] (.node (.node (.node (.node (.node (.node (.node .leaf 1348 [1396]
  .leaf) 1349 [1397] .leaf) 1350 [1398] (.node (.node .leaf 1351 [1399] .leaf) 1352 [1400]
  .leaf)) 1353 [1401] (.node (.node (.node .leaf 1354 [1402] .leaf) 1355 [1403] .leaf) 1356
  [1404] (.node (.node .leaf 1357 [1405] .leaf) 1358 [1406] .leaf))) 1359 [1407] (.node (.node
  (.node (.node .leaf 1360 [1408] .leaf) 1361 [1409] .leaf) 1362 [1410] (.node (.node .leaf
  1363 [1411] .leaf) 1364 [1412] .leaf)) 1365 [1413] (.node (.node (.node .leaf 1366 [1414]
  .leaf) 4256 [11520] .leaf) 4257 [11521] (.node .leaf 4258 [11522] .leaf)))) 4259 [11523]
  (.node (.node (.node (.node (.node .leaf 4260 [11524] .leaf) 4261 [11525] .leaf) 4262 [11526]
  (.node (.node .leaf 4263 [11527] .leaf) 4264 [11528] .leaf)) 4265 [11529] (.node (.node
  (.node .leaf 4266 [11530] .leaf) 4267 [11531] .leaf) 4268 [11532] (.node .leaf 4269 [11533]
  .leaf))) 4270 [11534] (.node (.node (.node (.node .leaf 4271 [11535] .leaf) 4272 [11536]
  .leaf) 4273 [11537] (.node (.node .leaf 4274 [11538] .leaf) 4275 [11539] .leaf)) 4276 [11540]
  (.node (.node (.node .leaf 4277 [11541] .leaf) 4278 [11542] .leaf) 4279 [11543] (.node .leaf
  4280 [11544] .leaf))))) 4281 [11545] (.node (.node (.node (.node (.node (.node .leaf 4282
  [11546] .leaf) 4283 [11547] .leaf) 4284 [11548] (.node (.node .leaf 4285 [11549] .leaf) 4286
  [11550] .leaf)) 4287 [11551] (.node (.node (.node .leaf 4288 [11552] .leaf) 4289 [11553]
  .leaf) 4290 [11554] (.node .leaf 4291 [11555] .leaf))) 4292 [11556] (.node (.node (.node
  (.node .leaf 4293 [11557] .leaf) 4295 [11559] .leaf) 4301 [11565] (.node (.node .leaf 5024
  [43888] .leaf) 5025 [43889] .leaf)) 5026 [43890] (.node (.node (.node .leaf 5027 [43891]
  .leaf) 5028 [43892] .leaf) 5029 [43893] (.node .leaf 5030 [43894] .leaf)))) 5031 [43895]
  (.node (.node (.node (.node (.node .leaf 5032 [43896] .leaf) 5033 [43897] .leaf) 5034 [43898]
  (.node (.node .leaf 5035 [43899] .leaf) 5036 [43900] .leaf)) 5037 [43901] (.node (.node
  (.node .leaf 5038 [43902] .leaf) 5039 [43903] .leaf) 5040 [43904] (.node .leaf 5041 [43905]
  .leaf))) 5042 [43906] (.node (.node (.node (.node .leaf 5043 [43907] .leaf) 5044 [43908]
  .leaf) 5045 [43909] (.node (.node .leaf 5046 [43910] .leaf) 5047 [43911] .leaf)) 5048 [43912]
  (.node (.node (.node .leaf 5049 [43913] .leaf) 5050 [43914] .leaf) 5051 [43915] (.node .leaf
  5052 [43916] .leaf))))))) 5053 [43917] (.node (.node (.node (.node (.node (.node (.node
  (.node .leaf 5054 [43918] .leaf) 5055 [43919] .leaf) 5056 [43920] (.node (.node .leaf 5057
  [43921] .leaf) 5058 [43922] .leaf)) 5059 [43923] (.node (.node (.node .leaf 5060 [43924]
  .leaf) 5061 [43925] .leaf) 5062 [43926] (.node (.node .leaf 5063 [43927] .leaf) 5064 [43928]
  .leaf))) 5065 [43929] (.node (.node (.node (.node .leaf 5066 [43930] .leaf) 5067 [43931]
  .leaf) 5068 [43932] (.node (.node .leaf 5069 [43933] .leaf) 5070 [43934] .leaf)) 5071 [43935]
  (.node (.node (.node .leaf 5072 [43936] .leaf) 5073 [43937] .leaf) 5074 [43938] (.node .leaf
  5075 [43939] .leaf)))) 5076 [43940] (.node (.node (.node (.node (.node .leaf 5077 [43941]
  .leaf) 5078 [43942] .leaf) 5079 [43943] (.node (.node .leaf 5080 [43944] .leaf) 5081 [43945]
  .leaf)) 5082 [43946] (.node (.node (.node .leaf 5083 [43947] .leaf) 5084 [43948] .leaf) 5085
  [43949] (.node .leaf 5086 [43950] .leaf))) 5087 [43951] (.node (.node (.node (.node .leaf
  5088 [43952] .leaf) 5089 [43953] .leaf) 5090 [43954] (.node (.node .leaf 5091 [43955] .leaf)
  5092 [43956] .leaf)) 5093 [43957] (.node (.node (.node .leaf 5094 [43958] .leaf) 5095 [43959]
  .leaf) 5096 [43960] (.node .leaf 5097 [43961] .leaf))))) 5098 [43962] (.node (.node (.node
  (.node (.node (.node .leaf 5099 [43963] .leaf) 5100 [43964] .leaf) 5101 [43965] (.node (.node
  .leaf 5102 [43966] .leaf) 5103 [43967] .leaf)) 5104 [5112] (.node (.node (.node .leaf 5105
  [5113] .leaf) 5106 [5114] .leaf) 5107 [5115] (.node (.node .leaf 5108 [5116] .leaf) 5109
  [5117] .leaf))) 7312 [4304] (.node (.node (.node (.node .leaf 7313 [4305] .leaf) 7314 [4306]
  .leaf) 7315 [4307] (.node (.node .leaf 7316 [4308] .leaf) 7317 [4309] .leaf)) 7318 [4310]
  (.node (.node (.node .leaf 7319 [4311] .leaf) 7320 [4312] .leaf) 7321 [4313] (.node .leaf
  7322 [4314] .leaf)))) 7323 [4315] (.node (.node (.node (.node (.node .leaf 7324 [4316] .leaf)
  7325 [4317] .leaf) 7326 [4318] (.node (.node .leaf 7327 [4319] .leaf) 7328 [4320] .leaf))
  7329 [4321] (.node (.node (.node .leaf 7330 [4322] .leaf) 7331 [4323] .leaf) 7332 [4324]
  (.node .leaf 7333 [4325] .leaf))) 7334 [4326] (.node (.node (.node (.node .leaf 7335 [4327]
  .leaf) 7336 [4328] .leaf) 7337 [4329] (.node (.node .leaf 7338 [4330] .leaf) 7339 [4331]
  .leaf)) 7340 [4332] (.node (.node (.node .leaf 7341 [4333] .leaf) 7342 [4334] .leaf) 7343
  [4335] (.node .leaf 7344 [4336] .leaf)))))) 7345 [4337] (.node (.node (.node (.node (.node
  (.node (.node .leaf 7346 [4338] .leaf) 7347 [4339] .leaf) 7348 [4340] (.node (.node .leaf
  7349 [4341] .leaf) 7350 [4342] .leaf)) 7351 [4343] (.node (.node (.node .leaf 7352 [4344]
  .leaf) 7353 [4345] .leaf) 7354 [4346] (.node (.node .leaf 7357 [4349] .leaf) 7358 [4350]
  .leaf))) 7359 [4351] (.node (.node (.node (.node .leaf 7680 [7681] .leaf) 7682 [7683] .leaf)
  7684 [7685] (.node (.node .leaf 7686 [7687] .leaf) 7688 [7689] .leaf)) 7690 [7691] (.node
  (.node (.node .leaf 7692 [7693] .leaf) 7694 [7695] .leaf) 7696 [7697] (.node .leaf 7698
  [7699] .leaf)))) 7700 [7701] (.node (.node (.node (.node (.node .leaf 7702 [7703] .leaf) 7704
  [7705] .leaf) 7706 [7707] (.node (.node .leaf 7708 [7709] .leaf) 7710 [7711] .leaf)) 7712
  [7713] (.node (.node (.node .leaf 7714 [7715] .leaf) 7716 [7717] .leaf) 7718 [7719] (.node
  .leaf 7720 [7721] .leaf))) 7722 [7723] (.node (.node (.node (.node .leaf 7724 [7725] .leaf)
  7726 [7727] .leaf) 7728 [7729] (.node (.node .leaf 7730 [7731] .leaf) 7732 [7733] .leaf))
  7734 [7735] (.node (.node (.node .leaf 7736 [7737] .leaf) 7738 [7739] .leaf) 7740 [7741]
  (.node .leaf 7742 [7743] .leaf))))) 7744 [7745] (.node (.node (.node (.node (.node (.node
  .leaf 7746 [7747] .leaf) 7748 [7749] .leaf) 7750 [7751] (.node (.node .leaf 7752 [7753]
  .leaf) 7754 [7755] .leaf)) 7756 [7757] (.node (.node (.node .leaf 7758 [7759] .leaf) 7760
  [7761] .leaf) 7762 [7763] (.node .leaf 7764 [7765] .leaf))) 7766 [7767] (.node (.node (.node
  (.node .leaf 7768 [7769] .leaf) 7770 [7771] .leaf) 7772 [7773] (.node (.node .leaf 7774
  [7775] .leaf) 7776 [7777] .leaf)) 7778 [7779] (.node (.node (.node .leaf 7780 [7781] .leaf)
  7782 [7783] .leaf) 7784 [7785] (.node .leaf 7786 [7787] .leaf)))) 7788 [7789] (.node (.node
  (.node (.node (.node .leaf 7790 [7791] .leaf) 7792 [7793] .leaf) 7794 [7795] (.node (.node
  .leaf 7796 [7797] .leaf) 7798 [7799] .leaf)) 7800 [7801] (.node (.node (.node .leaf 7802
  [7803] .leaf) 7804 [7805] .leaf) 7806 [7807] (.node .leaf 7808 [7809] .leaf))) 7810 [7811]
  (.node (.node (.node (.node .leaf 7812 [7813] .leaf) 7814 [7815] .leaf) 7816 [7817] (.node
  (.node .leaf 7818 [7819] .leaf) 7820 [7821] .leaf)) 7822 [7823] (.node (.node (.node .leaf
  7824 [7825] .leaf) 7826 [7827] .leaf) 7828 [7829] (.node .leaf 7838 [223] .leaf))))))))) 7840
  [7841] (.node (.node (.node (.node (.node (.node (.node (.node (.node (.node .leaf 7842
  [7843] .leaf) 7844 [7845] .leaf) 7846 [7847] (.node (.node .leaf 7848 [7849] .leaf) 7850
  [7851] .leaf)) 7852 [7853] (.node (.node (.node .leaf 7854 [7855] .leaf) 7856 [7857] .leaf)
  7858 [7859] (.node (.node .leaf 7860 [7861] .leaf) 7862 [7863] .leaf))) 7864 [7865] (.node
  (.node (.node (.node .leaf 7866 [7867] .leaf) 7868 [7869] .leaf) 7870 [7871] (.node (.node
  .leaf 7872 [7873] .leaf) 7874 [7875] .leaf)) 7876 [7877] (.node (.node (.node .leaf 7878
  [7879] .leaf) 7880 [7881] .leaf) 7882 [7883] (.node .leaf 7884 [7885] .leaf)))) 7886 [7887]
  (.node (.node (.node (.node (.node .leaf 7888 [7889] .leaf) 7890 [7891] .leaf) 7892 [7893]
  (.node (.node .leaf 7894 [7895] .leaf) 7896 [7897] .leaf)) 7898 [7899] (.node (.node (.node
  .leaf 7900 [7901] .leaf) 7902 [7903] .leaf) 7904 [7905] (.node .leaf 7906 [7907] .leaf)))
  7908 [7909] (.node (.node (.node (.node .leaf 7910 [7911] .leaf) 7912 [7913] .leaf) 7914
  [7915] (.node (.node .leaf 7916 [7917] .leaf) 7918 [7919] .leaf)) 7920 [7921] (.node (.node
  (.node .leaf 7922 [7923] .leaf) 7924 [7925] .leaf) 7926 [7927] (.node .leaf 7928 [7929]
  .leaf))))) 7930 [7931] (.node (.node (.node (.node (.node (.node .leaf 7932 [7933] .leaf)
  7934 [7935] .leaf) 7944 [7936] (.node (.node .leaf 7945 [7937] .leaf) 7946 [7938] .leaf))
  7947 [7939] (.node (.node (.node .leaf 7948 [7940] .leaf) 7949 [7941] .leaf) 7950 [7942]
  (.node (.node .leaf 7951 [7943] .leaf) 7960 [7952] .leaf))) 7961 [7953] (.node (.node (.node
  (.node .leaf 7962 [7954] .leaf) 7963 [7955] .leaf) 7964 [7956] (.node (.node .leaf 7965
  [7957] .leaf) 7976 [7968] .leaf)) 7977 [7969] (.node (.node (.node .leaf 7978 [7970] .leaf)
  7979 [7971] .leaf) 7980 [7972] (.node .leaf 7981 [7973] .leaf)))) 7982 [7974] (.node (.node
  (.node (.node (.node .leaf 7983 [7975] .leaf) 7992 [7984] .leaf) 7993 [7985] (.node (.node
  .leaf 7994 [7986] .leaf) 7995 [7987] .leaf)) 7996 [7988] (.node (.node (.node .leaf 7997
  [7989] .leaf) 7998 [7990] .leaf) 7999 [7991] (.node .leaf 8008 [8000] .leaf))) 8009 [8001]
  (.node (.node (.node (.node .leaf 8010 [8002] .leaf) 8011 [8003] .leaf) 8012 [8004] (.node
  (.node .leaf 8013 [8005] .leaf) 8025 [8017] .leaf)) 8027 [8019] (.node (.node (.node .leaf
  8029 [8021] .leaf) 8031 [8023] .leaf) 8040 [8032] (.node .leaf 8041 [8033] .leaf)))))) 8042
  [8034] (.node (.node (.node (.node (.node (.node (.node .leaf 8043 [8035] .leaf) 8044 [8036]
  .leaf) 8045 [8037] (.node (.node .leaf 8046 [8038] .leaf) 8047 [8039] .leaf)) 8072 [8064]
  (.node (.node (.node .leaf 8073 [8065] .leaf) 8074 [8066] .leaf) 8075 [8067] (.node (.node
  .leaf 8076 [8068] .leaf) 8077 [8069] .leaf))) 8078 [8070] (.node (.node (.node (.node .leaf
  8079 [8071] .leaf) 8088 [8080] .leaf) 8089 [8081] (.node (.node .leaf 8090 [8082] .leaf) 8091
  [8083] .leaf)) 8092 [8084] (.node (.node (.node .leaf 8093 [8085] .leaf) 8094 [8086] .leaf)
  8095 [8087] (.node .leaf 8104 [8096] .leaf)))) 8105 [8097] (.node (.node (.node (.node (.node
  .leaf 8106 [8098] .leaf) 8107 [8099] .leaf) 8108 [8100] (.node (.node .leaf 8109 [8101]
  .leaf) 8110 [8102] .leaf)) 8111 [8103] (.node (.node (.node .leaf 8120 [8112] .leaf) 8121
  [8113] .leaf) 8122 [8048] (.node .leaf 8123 [8049] .leaf))) 8124 [8115] (.node (.node (.node
  (.node .leaf 8136 [8050] .leaf) 8137 [8051] .leaf) 8138 [8052] (.node (.node .leaf 8139
  [8053] .leaf) 8140 [8131] .leaf)) 8152 [8144] (.node (.node (.node .leaf 8153 [8145] .leaf)
  8154 [8054] .leaf) 8155 [8055] (.node .leaf 8168 [8160] .leaf))))) 8169 [8161] (.node (.node
  (.node (.node (.node (.node .leaf 8170 [8058] .leaf) 8171 [8059] .leaf) 8172 [8165] (.node
  (.node .leaf 8184 [8056] .leaf) 8185 [8057] .leaf)) 8186 [8060] (.node (.node (.node .leaf
  8187 [8061] .leaf) 8188 [8179] .leaf) 8486 [969] (.node .leaf 8490 [107] .leaf))) 8491 [229]
  (.node (.node (.node (.node .leaf 8498 [8526] .leaf) 8544 [8560] .leaf) 8545 [8561] (.node
  (.node .leaf 8546 [8562] .leaf) 8547 [8563] .leaf)) 8548 [8564] (.node (.node (.node .leaf
  8549 [8565] .leaf) 8550 [8566] .leaf) 8551 [8567] (.node .leaf 8552 [8568] .leaf)))) 8553
  [8569] (.node (.node (.node (.node (.node .leaf 8554 [8570] .leaf) 8555 [8571] .leaf) 8556
  [8572] (.node (.node .leaf 8557 [8573] .leaf) 8558 [8574] .leaf)) 8559 [8575] (.node (.node
  (.node .leaf 8579 [8580] .leaf) 9398 [9424] .leaf) 9399 [9425] (.node .leaf 9400 [9426]
  .leaf))) 9401 [9427] (.node (.node (.node (.node .leaf 9402 [9428] .leaf) 9403 [9429] .leaf)
  9404 [9430] (.node (.node .leaf 9405 [9431] .leaf) 9406 [9432] .leaf)) 9407 [9433] (.node
  (.node (.node .leaf 9408 [9434] .leaf) 9409 [9435] .leaf) 9410 [9436] (.node .leaf 9411
  [9437] .leaf))))))) 9412 [9438] (.node (.node (.node (.node (.node (.node (.node (.node .leaf
  9413 [9439] .leaf) 9414 [9440] .leaf) 9415 [9441] (.node (.node .leaf 9416 [9442] .leaf) 9417
  [9443] .leaf)) 9418 [9444] (.node (.node (.node .leaf 9419 [9445] .leaf) 9420 [9446] .leaf)
  9421 [9447] (.node (.node .leaf 9422 [9448] .leaf) 9423 [9449] .leaf))) 11264 [11312] (.node
  (.node (.node (.node .leaf 11265 [11313] .leaf) 11266 [11314] .leaf) 11267 [11315] (.node
  (.node .leaf 11268 [11316] .leaf) 11269 [11317] .leaf)) 11270 [11318] (.node (.node (.node
  .leaf 11271 [11319] .leaf) 11272 [11320] .leaf) 11273 [11321] (.node .leaf 11274 [11322]
  .leaf)))) 11275 [11323] (.node (.node (.node (.node (.node .leaf 11276 [11324] .leaf) 11277
  [11325] .leaf) 11278 [11326] (.node (.node .leaf 11279 [11327] .leaf) 11280 [11328] .leaf))
  11281 [11329] (.node (.node (.node .leaf 11282 [11330] .leaf) 11283 [11331] .leaf) 11284
  [11332] (.node .leaf 11285 [11333] .leaf))) 11286 [11334] (.node (.node (.node (.node .leaf
  11287 [11335] .leaf) 11288 [11336] .leaf) 11289 [11337] (.node (.node .leaf 11290 [11338]
  .leaf) 11291 [11339] .leaf)) 11292 [11340] (.node (.node (.node .leaf 11293 [11341] .leaf)
  11294 [11342] .leaf) 11295 [11343] (.node .leaf 11296 [11344] .leaf))))) 11297 [11345] (.node
  (.node (.node (.node (.node (.node .leaf 11298 [11346] .leaf) 11299 [11347] .leaf) 11300
  [11348] (.node (.node .leaf 11301 [11349] .leaf) 11302 [11350] .leaf)) 11303 [11351] (.node
  (.node (.node .leaf 11304 [11352] .leaf) 11305 [11353] .leaf) 11306 [11354] (.node (.node
  .leaf 11307 [11355] .leaf) 11308 [11356] .leaf))) 11309 [11357] (.node (.node (.node (.node
  .leaf 11310 [11358] .leaf) 11311 [11359] .leaf) 11360 [11361] (.node (.node .leaf 11362 [619]
  .leaf) 11363 [7549] .leaf)) 11364 [637] (.node (.node (.node .leaf 11367 [11368] .leaf) 11369
  [11370] .leaf) 11371 [11372] (.node .leaf 11373 [593] .leaf)))) 11374 [625] (.node (.node
  (.node (.node (.node .leaf 11375 [592] .leaf) 11376 [594] .leaf) 11378 [11379] (.node (.node
  .leaf 11381 [11382] .leaf) 11390 [575] .leaf)) 11391 [576] (.node (.node (.node .leaf 11392
  [11393] .leaf) 11394 [11395] .leaf) 11396 [11397] (.node .leaf 11398 [11399] .leaf))) 11400
  [11401] (.node (.node (.node (.node .leaf 11402 [11403] .leaf) 11404 [11405] .leaf) 11406
  [11407] (.node (.node .leaf 11408 [11409] .leaf) 11410 [11411] .leaf)) 11412 [11413] (.node
  (.node (.node .leaf 11414 [11415] .leaf) 11416 [11417] .leaf) 11418 [11419] (.node .leaf
  11420 [11421] .leaf)))))) 11422 [11423] (.node (.node (.node (.node (.node (.node (.node
  .leaf 11424 [11425] .leaf) 11426 [11427] .leaf) 11428 [11429] (.node (.node .leaf 11430
  [11431] .leaf) 11432 [11433] .leaf)) 11434 [11435] (.node (.node (.node .leaf 11436 [11437]
  .leaf) 11438 [11439] .leaf) 11440 [11441] (.node (.node .leaf 11442 [11443] .leaf) 11444
  [11445] .leaf))) 11446 [11447] (.node (.node (.node (.node .leaf 11448 [11449] .leaf) 11450
  [11451] .leaf) 11452 [11453] (.node (.node .leaf 11454 [11455] .leaf) 11456 [11457] .leaf))
  11458 [11459] (.node (.node (.node .leaf 11460 [11461] .leaf) 11462 [11463] .leaf) 11464
  [11465] (.node .leaf 11466 [11467] .leaf)))) 11468 [11469] (.node (.node (.node (.node (.node
  .leaf 11470 [11471] .leaf) 11472 [11473] .leaf) 11474 [11475] (.node (.node .leaf 11476
  [11477] .leaf) 11478 [11479] .leaf)) 11480 [11481] (.node (.node (.node .leaf 11482 [11483]
  .leaf) 11484 [11485] .leaf) 11486 [11487] (.node .leaf 11488 [11489] .leaf))) 11490 [11491]
  (.node (.node (.node (.node .leaf 11499 [11500] .leaf) 11501 [11502] .leaf) 11506 [11507]
  (.node (.node .leaf 42560 [42561] .leaf) 42562 [42563] .leaf)) 42564 [42565] (.node (.node
  (.node .leaf 42566 [42567] .leaf) 42568 [42569] .leaf) 42570 [42571] (.node .leaf 42572
  [42573] .leaf))))) 42574 [42575] (.node (.node (.node (.node (.node (.node .leaf 42576
  [42577] .leaf) 42578 [42579] .leaf) 42580 [42581] (.node (.node .leaf 42582 [42583] .leaf)
  42584 [42585] .leaf)) 42586 [42587] (.node (.node (.node .leaf 42588 [42589] .leaf) 42590
  [42591] .leaf) 42592 [42593] (.node .leaf 42594 [42595] .leaf))) 42596 [42597] (.node (.node
  (.node (.node .leaf 42598 [42599] .leaf) 42600 [42601] .leaf) 42602 [42603] (.node (.node
  .leaf 42604 [42605] .leaf) 42624 [42625] .leaf)) 42626 [42627] (.node (.node (.node .leaf
  42628 [42629] .leaf) 42630 [42631] .leaf) 42632 [42633] (.node .leaf 42634 [42635] .leaf))))
  42636 [42637] (.node (.node (.node (.node (.node .leaf 42638 [42639] .leaf) 42640 [42641]
  .leaf) 42642 [42643] (.node (.node .leaf 42644 [42645] .leaf) 42646 [42647] .leaf)) 42648
  [42649] (.node (.node (.node .leaf 42650 [42651] .leaf) 42786 [42787] .leaf) 42788 [42789]
  (.node .leaf 42790 [42791] .leaf))) 42792 [42793] (.node (.node (.node (.node .leaf 42794
  [42795] .leaf) 42796 [42797] .leaf) 42798 [42799] (.node (.node .leaf 42802 [42803] .leaf)
  42804 [42805] .leaf)) 42806 [42807] (.node (.node (.node .leaf 42808 [42809] .leaf) 42810
  [42811] .leaf) 42812 [42813] (.node .leaf 42814 [42815] .leaf)))))))) 42816 [42817] (.node
  (.node (.node (.node (.node (.node (.node (.node (.node .leaf 42818 [42819] .leaf) 42820
  [42821] .leaf) 42822 [42823] (.node (.node .leaf 42824 [42825] .leaf) 42826 [42827] .leaf))
  42828 [42829] (.node (.node (.node .leaf 42830 [42831] .leaf) 42832 [42833] .leaf) 42834
  [42835] (.node (.node .leaf 42836 [42837] .leaf) 42838 [42839] .leaf))) 42840 [42841] (.node
  (.node (.node (.node .leaf 42842 [42843] .leaf) 42844 [42845] .leaf) 42846 [42847] (.node
  (.node .leaf 42848 [42849] .leaf) 42850 [42851] .leaf)) 42852 [42853] (.node (.node (.node
  .leaf 42854 [42855] .leaf) 42856 [42857] .leaf) 42858 [42859] (.node .leaf 42860 [42861]
  .leaf)))) 42862 [42863] (.node (.node (.node (.node (.node .leaf 42873 [42874] .leaf) 42875
  [42876] .leaf) 42877 [7545] (.node (.node .leaf 42878 [42879] .leaf) 42880 [42881] .leaf))
  42882 [42883] (.node (.node (.node .leaf 42884 [42885] .leaf) 42886 [42887] .leaf) 42891
  [42892] (.node .leaf 42893 [613] .leaf))) 42896 [42897] (.node (.node (.node (.node .leaf
  42898 [42899] .leaf) 42902 [42903] .leaf) 42904 [42905] (.node (.node .leaf 42906 [42907]
  .leaf) 42908 [42909] .leaf)) 42910 [42911] (.node (.node (.node .leaf 42912 [42913] .leaf)
  42914 [42915] .leaf) 42916 [42917] (.node .leaf 42918 [42919] .leaf))))) 42920 [42921] (.node
  (.node (.node (.node (.node (.node .leaf 42922 [614] .leaf) 42923 [604] .leaf) 42924 [609]
  (.node (.node .leaf 42925 [620] .leaf) 42926 [618] .leaf)) 42928 [670] (.node (.node (.node
  .leaf 42929 [647] .leaf) 42930 [669] .leaf) 42931 [43859] (.node (.node .leaf 42932 [42933]
  .leaf) 42934 [42935] .leaf))) 42936 [42937] (.node (.node (.node (.node .leaf 42938 [42939]
  .leaf) 42940 [42941] .leaf) 42942 [42943] (.node (.node .leaf 42944 [42945] .leaf) 42946
  [42947] .leaf)) 42948 [42900] (.node (.node (.node .leaf 42949 [642] .leaf) 42950 [7566]
  .leaf) 42951 [42952] (.node .leaf 42953 [42954] .leaf)))) 42960 [42961] (.node (.node (.node
  (.node (.node .leaf 42966 [42967] .leaf) 42968 [42969] .leaf) 42997 [42998] (.node (.node
  .leaf 65313 [65345] .leaf) 65314 [65346] .leaf)) 65315 [65347] (.node (.node (.node .leaf
  65316 [65348] .leaf) 65317 [65349] .leaf) 65318 [65350] (.node .leaf 65319 [65351] .leaf)))
  65320 [65352] (.node (.node (.node (.node .leaf 65321 [65353] .leaf) 65322 [65354] .leaf)
  65323 [65355] (.node (.node .leaf 65324 [65356] .leaf) 65325 [65357] .leaf)) 65326 [65358]
  (.node (.node (.node .leaf 65327 [65359] .leaf) 65328 [65360] .leaf) 65329 [65361] (.node
  .leaf 65330 [65362] .leaf)))))) 65331 [65363] (.node (.node (.node (.node (.node (.node
  (.node .leaf 65332 [65364] .leaf) 65333 [65365] .leaf) 65334 [65366] (.node (.node .leaf
  65335 [65367] .leaf) 65336 [65368] .leaf)) 65337 [65369] (.node (.node (.node .leaf 65338
  [65370] .leaf) 66560 [66600] .leaf) 66561 [66601] (.node (.node .leaf 66562 [66602] .leaf)
  66563 [66603] .leaf))) 66564 [66604] (.node (.node (.node (.node .leaf 66565 [66605] .leaf)
  66566 [66606] .leaf) 66567 [66607] (.node (.node .leaf 66568 [66608] .leaf) 66569 [66609]
  .leaf)) 66570 [66610] (.node (.node (.node .leaf 66571 [66611] .leaf) 66572 [66612] .leaf)
  66573 [66613] (.node .leaf 66574 [66614] .leaf)))) 66575 [66615] (.node (.node (.node (.node
  (.node .leaf 66576 [66616] .leaf) 66577 [66617] .leaf) 66578 [66618] (.node (.node .leaf
  66579 [66619] .leaf) 66580 [66620] .leaf)) 66581 [66621] (.node (.node (.node .leaf 66582
  [66622] .leaf) 66583 [66623] .leaf) 66584 [66624] (.node .leaf 66585 [66625] .leaf))) 66586
  [66626] (.node (.node (.node (.node .leaf 66587 [66627] .leaf) 66588 [66628] .leaf) 66589
  [66629] (.node (.node .leaf 66590 [66630] .leaf) 66591 [66631] .leaf)) 66592 [66632] (.node
  (.node (.node .leaf 66593 [66633] .leaf) 66594 [66634] .leaf) 66595 [66635] (.node .leaf
  66596 [66636] .leaf))))) 66597 [66637] (.node (.node (.node (.node (.node (.node .leaf 66598
  [66638] .leaf) 66599 [66639] .leaf) 66736 [66776] (.node (.node .leaf 66737 [66777] .leaf)
  66738 [66778] .leaf)) 66739 [66779] (.node (.node (.node .leaf 66740 [66780] .leaf) 66741
  [66781] .leaf) 66742 [66782] (.node .leaf 66743 [66783] .leaf))) 66744 [66784] (.node (.node
  (.node (.node .leaf 66745 [66785] .leaf) 66746 [66786] .leaf) 66747 [66787] (.node (.node
  .leaf 66748 [66788] .leaf) 66749 [66789] .leaf)) 66750 [66790] (.node (.node (.node .leaf
  66751 [66791] .leaf) 66752 [66792] .leaf) 66753 [66793] (.node .leaf 66754 [66794] .leaf))))
  66755 [66795] (.node (.node (.node (.node (.node .leaf 66756 [66796] .leaf) 66757 [66797]
  .leaf) 66758 [66798] (.node (.node .leaf 66759 [66799] .leaf) 66760 [66800] .leaf)) 66761
  [66801] (.node (.node (.node .leaf 66762 [66802] .leaf) 66763 [66803] .leaf) 66764 [66804]
  (.node .leaf 66765 [66805] .leaf))) 66766 [66806] (.node (.node (.node (.node .leaf 66767
  [66807] .leaf) 66768 [66808] .leaf) 66769 [66809] (.node (.node .leaf 66770 [66810] .leaf)
  66771 [66811] .leaf)) 66928 [66967] (.node (.node (.node .leaf 66929 [66968] .leaf) 66930
  [66969] .leaf) 66931 [66970] (.node .leaf 66932 [66971] .leaf))))))) 66933 [66972] (.node
  (.node (.node (.node (.node (.node (.node (.node .leaf 66934 [66973] .leaf) 66935 [66974]
  .leaf) 66936 [66975] (.node (.node .leaf 66937 [66976] .leaf) 66938 [66977] .leaf)) 66940
  [66979] (.node (.node (.node .leaf 66941 [66980] .leaf) 66942 [66981] .leaf) 66943 [66982]
  (.node (.node .leaf 66944 [66983] .leaf) 66945 [66984] .leaf))) 66946 [66985] (.node (.node
  (.node (.node .leaf 66947 [66986] .leaf) 66948 [66987] .leaf) 66949 [66988] (.node (.node
  .leaf 66950 [66989] .leaf) 66951 [66990] .leaf)) 66952 [66991] (.node (.node (.node .leaf
  66953 [66992] .leaf) 66954 [66993] .leaf) 66956 [66995] (.node .leaf 66957 [66996] .leaf))))
  66958 [66997] (.node (.node (.node (.node (.node .leaf 66959 [66998] .leaf) 66960 [66999]
  .leaf) 66961 [67000] (.node (.node .leaf 66962 [67001] .leaf) 66964 [67003] .leaf)) 66965
  [67004] (.node (.node (.node .leaf 68736 [68800] .leaf) 68737 [68801] .leaf) 68738 [68802]
  (.node .leaf 68739 [68803] .leaf))) 68740 [68804] (.node (.node (.node (.node .leaf 68741
  [68805] .leaf) 68742 [68806] .leaf) 68743 [68807] (.node (.node .leaf 68744 [68808] .leaf)
  68745 [68809] .leaf)) 68746 [68810] (.node (.node (.node .leaf 68747 [68811] .leaf) 68748
  [68812] .leaf) 68749 [68813] (.node .leaf 68750 [68814] .leaf))))) 68751 [68815] (.node
  (.node (.node (.node (.node (.node .leaf 68752 [68816] .leaf) 68753 [68817] .leaf) 68754
  [68818] (.node (.node .leaf 68755 [68819] .leaf) 68756 [68820] .leaf)) 68757 [68821] (.node
  (.node (.node .leaf 68758 [68822] .leaf) 68759 [68823] .leaf) 68760 [68824] (.node (.node
  .leaf 68761 [68825] .leaf) 68762 [68826] .leaf))) 68763 [68827] (.node (.node (.node (.node
  .leaf 68764 [68828] .leaf) 68765 [68829] .leaf) 68766 [68830] (.node (.node .leaf 68767
  [68831] .leaf) 68768 [68832] .leaf)) 68769 [68833] (.node (.node (.node .leaf 68770 [68834]
  .leaf) 68771 [68835] .leaf) 68772 [68836] (.node .leaf 68773 [68837] .leaf)))) 68774 [68838]
  (.node (.node (.node (.node (.node .leaf 68775 [68839] .leaf) 68776 [68840] .leaf) 68777
  [68841] (.node (.node .leaf 68778 [68842] .leaf) 68779 [68843] .leaf)) 68780 [68844] (.node
  (.node (.node .leaf 68781 [68845] .leaf) 68782 [68846] .leaf) 68783 [68847] (.node .leaf
  68784 [68848] .leaf))) 68785 [68849] (.node (.node (.node (.node .leaf 68786 [68850] .leaf)
  71840 [71872] .leaf) 71841 [71873] (.node (.node .leaf 71842 [71874] .leaf) 71843 [71875]
  .leaf)) 71844 [71876] (.node (.node (.node .leaf 71845 [71877] .leaf) 71846 [71878] .leaf)
  71847 [71879] (.node .leaf 71848 [71880] .leaf)))))) 71849 [71881] (.node (.node (.node
  (.node (.node (.node (.node .leaf 71850 [71882] .leaf) 71851 [71883] .leaf) 71852 [71884]
  (.node (.node .leaf 71853 [71885] .leaf) 71854 [71886] .leaf)) 71855 [71887] (.node (.node
  (.node .leaf 71856 [71888] .leaf) 71857 [71889] .leaf) 71858 [71890] (.node (.node .leaf
  71859 [71891] .leaf) 71860 [71892] .leaf))) 71861 [71893] (.node (.node (.node (.node .leaf
  71862 [71894] .leaf) 71863 [71895] .leaf) 71864 [71896] (.node (.node .leaf 71865 [71897]
  .leaf) 71866 [71898] .leaf)) 71867 [71899] (.node (.node (.node .leaf 71868 [71900] .leaf)
  71869 [71901] .leaf) 71870 [71902] (.node .leaf 71871 [71903] .leaf)))) 93760 [93792] (.node
  (.node (.node (.node (.node .leaf 93761 [93793] .leaf) 93762 [93794] .leaf) 93763 [93795]
  (.node (.node .leaf 93764 [93796] .leaf) 93765 [93797] .leaf)) 93766 [93798] (.node (.node
  (.node .leaf 93767 [93799] .leaf) 93768 [93800] .leaf) 93769 [93801] (.node .leaf 93770
  [93802] .leaf))) 93771 [93803] (.node (.node (.node (.node .leaf 93772 [93804] .leaf) 93773
  [93805] .leaf) 93774 [93806] (.node (.node .leaf 93775 [93807] .leaf) 93776 [93808] .leaf))
  93777 [93809] (.node (.node (.node .leaf 93778 [93810] .leaf) 93779 [93811] .leaf) 93780
  [93812] (.node .leaf 93781 [93813] .leaf))))) 93782 [93814] (.node (.node (.node (.node
  (.node (.node .leaf 93783 [93815] .leaf) 93784 [93816] .leaf) 93785 [93817] (.node (.node
  .leaf 93786 [93818] .leaf) 93787 [93819] .leaf)) 93788 [93820] (.node (.node (.node .leaf
  93789 [93821] .leaf) 93790 [93822] .leaf) 93791 [93823] (.node .leaf 125184 [125218] .leaf)))
  125185 [125219] (.node (.node (.node (.node .leaf 125186 [125220] .leaf) 125187 [125221]
  .leaf) 125188 [125222] (.node (.node .leaf 125189 [125223] .leaf) 125190 [125224] .leaf))
  125191 [125225] (.node (.node (.node .leaf 125192 [125226] .leaf) 125193 [125227] .leaf)
  125194 [125228] (.node .leaf 125195 [125229] .leaf)))) 125196 [125230] (.node (.node (.node
  (.node (.node .leaf 125197 [125231] .leaf) 125198 [125232] .leaf) 125199 [125233] (.node
  (.node .leaf 125200 [125234] .leaf) 125201 [125235] .leaf)) 125202 [125236] (.node (.node
  (.node .leaf 125203 [125237] .leaf) 125204 [125238] .leaf) 125205 [125239] (.node .leaf
  125206 [125240] .leaf))) 125207 [125241] (.node (.node (.node (.node .leaf 125208 [125242]
  .leaf) 125209 [125243] .leaf) 125210 [125244] (.node (.node .leaf 125211 [125245] .leaf)
  125212 [125246] .leaf)) 125213 [125247] (.node (.node (.node .leaf 125214 [125248] .leaf)
  125215 [125249] .leaf) 125216 [125250] (.node .leaf 125217 [125251] .leaf))))))))))

/-- The code-point ranges of Unicode 14.0 `Cased` characters, as used by
CPython's final-sigma rule (`_PyUnicode_IsCased`). -/
def casedTree : RangeTree :=
  (.node (.node (.node (.node (.node (.node (.node (.node .leaf 65 90 .leaf) 97 122 .leaf) 170
  170 (.node .leaf 181 181 .leaf)) 186 186 (.node (.node (.node .leaf 192 214 .leaf) 216 246
  .leaf) 248 442 (.node .leaf 444 447 .leaf))) 452 659 (.node (.node (.node (.node .leaf 661
  687 .leaf) 880 883 .leaf) 886 887 (.node .leaf 891 893 .leaf)) 895 895 (.node (.node .leaf
  902 902 .leaf) 904 906 (.node .leaf 908 908 .leaf)))) 910 929 (.node (.node (.node (.node
  (.node .leaf 931 1013 .leaf) 1015 1153 .leaf) 1162 1327 (.node .leaf 1329 1366 .leaf)) 1376
  1416 (.node (.node (.node .leaf 4256 4293 .leaf) 4295 4295 .leaf) 4301 4301 (.node .leaf 4304
  4346 .leaf))) 4349 4351 (.node (.node (.node (.node .leaf 5024 5109 .leaf) 5112 5117 .leaf)
  7296 7304 (.node .leaf 7312 7354 .leaf)) 7357 7359 (.node (.node .leaf 7424 7467 .leaf) 7531
  7543 (.node .leaf 7545 7578 .leaf))))) 7680 7957 (.node (.node (.node (.node (.node (.node
  .leaf 7960 7965 .leaf) 7968 8005 .leaf) 8008 8013 (.node .leaf 8016 8023 .leaf)) 8025 8025
  (.node (.node (.node .leaf 8027 8027 .leaf) 8029 8029 .leaf) 8031 8061 (.node .leaf 8064 8116
  .leaf))) 8118 8124 (.node (.node (.node (.node .leaf 8126 8126 .leaf) 8130 8132 .leaf) 8134
  8140 (.node .leaf 8144 8147 .leaf)) 8150 8155 (.node (.node .leaf 8160 8172 .leaf) 8178 8180
  (.node .leaf 8182 8188 .leaf)))) 8450 8450 (.node (.node (.node (.node (.node .leaf 8455 8455
  .leaf) 8458 8467 .leaf) 8469 8469 (.node .leaf 8473 8477 .leaf)) 8484 8484 (.node (.node
  .leaf 8486 8486 .leaf) 8488 8488 (.node .leaf 8490 8493 .leaf))) 8495 8500 (.node (.node
  (.node (.node .leaf 8505 8505 .leaf) 8508 8511 .leaf) 8517 8521 (.node .leaf 8526 8526
  .leaf)) 8544 8575 (.node (.node .leaf 8579 8580 .leaf) 9398 9449 (.node .leaf 11264 11387
  .leaf)))))) 11390 11492 (.node (.node (.node (.node (.node (.node (.node .leaf 11499 11502
  .leaf) 11506 11507 .leaf) 11520 11557 (.node .leaf 11559 11559 .leaf)) 11565 11565 (.node
  (.node (.node .leaf 42560 42605 .leaf) 42624 42651 .leaf) 42786 42863 (.node .leaf 42865
  42887 .leaf))) 42891 42894 (.node (.node (.node (.node .leaf 42896 42954 .leaf) 42960 42961
  .leaf) 42963 42963 (.node .leaf 42965 42969 .leaf)) 42997 42998 (.node (.node .leaf 43002
  43002 .leaf) 43824 43866 (.node .leaf 43872 43880 .leaf)))) 43888 43967 (.node (.node (.node
  (.node (.node .leaf 64256 64262 .leaf) 64275 64279 .leaf) 65313 65338 (.node .leaf 65345
  65370 .leaf)) 66560 66639 (.node (.node (.node .leaf 66736 66771 .leaf) 66776 66811 .leaf)
  66928 66938 (.node .leaf 66940 66954 .leaf))) 66956 66962 (.node (.node (.node (.node .leaf
  66964 66965 .leaf) 66967 66977 .leaf) 66979 66993 (.node .leaf 66995 67001 .leaf)) 67003
  67004 (.node (.node .leaf 68736 68786 .leaf) 68800 68850 (.node .leaf 71840 71903 .leaf)))))
  93760 93823 (.node (.node (.node (.node (.node (.node .leaf 119808 119892 .leaf) 119894
  119964 .leaf) 119966 119967 (.node .leaf 119970 119970 .leaf)) 119973 119974 (.node (.node
  (.node .leaf 119977 119980 .leaf) 119982 119993 .leaf) 119995 119995 (.node .leaf 119997
  120003 .leaf))) 120005 120069 (.node (.node (.node (.node .leaf 120071 120074 .leaf) 120077
  120084 .leaf) 120086 120092 (.node .leaf 120094 120121 .leaf)) 120123 120126 (.node (.node
  .leaf 120128 120132 .leaf) 120134 120134 (.node .leaf 120138 120144 .leaf)))) 120146 120485
  (.node (.node (.node (.node (.node .leaf 120488 120512 .leaf) 120514 120538 .leaf) 120540
  120570 (.node .leaf 120572 120596 .leaf)) 120598 120628 (.node (.node .leaf 120630 120654
  .leaf) 120656 120686 (.node .leaf 120688 120712 .leaf))) 120714 120744 (.node (.node (.node
  (.node .leaf 120746 120770 .leaf) 120772 120779 .leaf) 122624 122633 (.node .leaf 122635
  122654 .leaf)) 125184 125251 (.node (.node .leaf 127280 127305 .leaf) 127312 127337 (.node
  .leaf 127344 127369 .leaf)))))))

/-- The code-point ranges of Unicode 14.0 `Case_Ignorable` characters, as
used by CPython's final-sigma rule (`_PyUnicode_IsCaseIgnorable`). -/
def caseIgnorableTree : RangeTree :=
  (.node (.node (.node (.node (.node (.node (.node (.node (.node .leaf 39 39 .leaf) 46 46
  (.node .leaf 58 58 .leaf)) 94 94 (.node (.node .leaf 96 96 .leaf) 168 168 .leaf)) 173 173
  (.node (.node (.node .leaf 175 175 .leaf) 180 180 (.node .leaf 183 184 .leaf)) 688 879 (.node
  (.node .leaf 884 885 .leaf) 890 890 .leaf))) 900 901 (.node (.node (.node (.node .leaf 903
  903 .leaf) 1155 1161 (.node .leaf 1369 1369 .leaf)) 1375 1375 (.node (.node .leaf 1425 1469
  .leaf) 1471 1471 .leaf)) 1473 1474 (.node (.node (.node .leaf 1476 1477 .leaf) 1479 1479
  .leaf) 1524 1524 (.node (.node .leaf 1536 1541 .leaf) 1552 1562 .leaf)))) 1564 1564 (.node
  (.node (.node (.node (.node .leaf 1600 1600 .leaf) 1611 1631 (.node .leaf 1648 1648 .leaf))
  1750 1757 (.node (.node .leaf 1759 1768 .leaf) 1770 1773 .leaf)) 1807 1807 (.node (.node
  (.node .leaf 1809 1809 .leaf) 1840 1866 (.node .leaf 1958 1968 .leaf)) 2027 2037 (.node
  (.node .leaf 2042 2042 .leaf) 2045 2045 .leaf))) 2070 2093 (.node (.node (.node (.node .leaf
  2137 2139 .leaf) 2184 2184 (.node .leaf 2192 2193 .leaf)) 2200 2207 (.node (.node .leaf 2249
  2306 .leaf) 2362 2362 .leaf)) 2364 2364 (.node (.node (.node .leaf 2369 2376 .leaf) 2381 2381
  .leaf) 2385 2391 (.node (.node .leaf 2402 2403 .leaf) 2417 2417 .leaf))))) 2433 2433 (.node
  (.node (.node (.node (.node (.node .leaf 2492 2492 .leaf) 2497 2500 (.node .leaf 2509 2509
  .leaf)) 2530 2531 (.node (.node .leaf 2558 2558 .leaf) 2561 2562 .leaf)) 2620 2620 (.node
  (.node (.node .leaf 2625 2626 .leaf) 2631 2632 (.node .leaf 2635 2637 .leaf)) 2641 2641
  (.node (.node .leaf 2672 2673 .leaf) 2677 2677 .leaf))) 2689 2690 (.node (.node (.node (.node
  .leaf 2748 2748 .leaf) 2753 2757 (.node .leaf 2759 2760 .leaf)) 2765 2765 (.node (.node .leaf
  2786 2787 .leaf) 2810 2815 .leaf)) 2817 2817 (.node (.node (.node .leaf 2876 2876 .leaf) 2879
  2879 .leaf) 2881 2884 (.node (.node .leaf 2893 2893 .leaf) 2901 2902 .leaf)))) 2914 2915
  (.node (.node (.node (.node (.node .leaf 2946 2946 .leaf) 3008 3008 (.node .leaf 3021 3021
  .leaf)) 3072 3072 (.node (.node .leaf 3076 3076 .leaf) 3132 3132 .leaf)) 3134 3136 (.node
  (.node (.node .leaf 3142 3144 .leaf) 3146 3149 .leaf) 3157 3158 (.node (.node .leaf 3170 3171
  .leaf) 3201 3201 .leaf))) 3260 3260 (.node (.node (.node (.node .leaf 3263 3263 .leaf) 3270
  3270 (.node .leaf 3276 3277 .leaf)) 3298 3299 (.node (.node .leaf 3328 3329 .leaf) 3387 3388
  .leaf)) 3393 3396 (.node (.node (.node .leaf 3405 3405 .leaf) 3426 3427 .leaf) 3457 3457
  (.node (.node .leaf 3530 3530 .leaf) 3538 3540 .leaf)))))) 3542 3542 (.node (.node (.node
  (.node (.node (.node (.node .leaf 3633 3633 .leaf) 3636 3642 (.node .leaf 3654 3662 .leaf))
  3761 3761 (.node (.node .leaf 3764 3772 .leaf) 3782 3782 .leaf)) 3784 3789 (.node (.node
  (.node .leaf 3864 3865 .leaf) 3893 3893 (.node .leaf 3895 3895 .leaf)) 3897 3897 (.node
  (.node .leaf 3953 3966 .leaf) 3968 3972 .leaf))) 3974 3975 (.node (.node (.node (.node .leaf
  3981 3991 .leaf) 3993 4028 (.node .leaf 4038 4038 .leaf)) 4141 4144 (.node (.node .leaf 4146
  4151 .leaf) 4153 4154 .leaf)) 4157 4158 (.node (.node (.node .leaf 4184 4185 .leaf) 4190 4192
  .leaf) 4209 4212 (.node (.node .leaf 4226 4226 .leaf) 4229 4230 .leaf)))) 4237 4237 (.node
  (.node (.node (.node (.node .leaf 4253 4253 .leaf) 4348 4348 (.node .leaf 4957 4959 .leaf))
  5906 5908 (.node (.node .leaf 5938 5939 .leaf) 5970 5971 .leaf)) 6002 6003 (.node (.node
  (.node .leaf 6068 6069 .leaf) 6071 6077 (.node .leaf 6086 6086 .leaf)) 6089 6099 (.node
  (.node .leaf 6103 6103 .leaf) 6109 6109 .leaf))) 6155 6159 (.node (.node (.node (.node .leaf
  6211 6211 .leaf) 6277 6278 (.node .leaf 6313 6313 .leaf)) 6432 6434 (.node (.node .leaf 6439
  6440 .leaf) 6450 6450 .leaf)) 6457 6459 (.node (.node (.node .leaf 6679 6680 .leaf) 6683 6683
  .leaf) 6742 6742 (.node (.node .leaf 6744 6750 .leaf) 6752 6752 .leaf))))) 6754 6754 (.node
  (.node (.node (.node (.node (.node .leaf 6757 6764 .leaf) 6771 6780 (.node .leaf 6783 6783
  .leaf)) 6823 6823 (.node (.node .leaf 6832 6862 .leaf) 6912 6915 .leaf)) 6964 6964 (.node
  (.node (.node .leaf 6966 6970 .leaf) 6972 6972 (.node .leaf 6978 6978 .leaf)) 7019 7027
  (.node (.node .leaf 7040 7041 .leaf) 7074 7077 .leaf))) 7080 7081 (.node (.node (.node (.node
  .leaf 7083 7085 .leaf) 7142 7142 (.node .leaf 7144 7145 .leaf)) 7149 7149 (.node (.node .leaf
  7151 7153 .leaf) 7212 7219 .leaf)) 7222 7223 (.node (.node (.node .leaf 7288 7293 .leaf) 7376
  7378 .leaf) 7380 7392 (.node (.node .leaf 7394 7400 .leaf) 7405 7405 .leaf)))) 7412 7412
  (.node (.node (.node (.node (.node .leaf 7416 7417 .leaf) 7468 7530 (.node .leaf 7544 7544
  .leaf)) 7579 7679 (.node (.node .leaf 8125 8125 .leaf) 8127 8129 .leaf)) 8141 8143 (.node
  (.node (.node .leaf 8157 8159 .leaf) 8173 8175 .leaf) 8189 8190 (.node (.node .leaf 8203 8207
  .leaf) 8216 8217 .leaf))) 8228 8228 (.node (.node (.node (.node .leaf 8231 8231 .leaf) 8234
  8238 (.node .leaf 8288 8292 .leaf)) 8294 8303 (.node (.node .leaf 8305 8305 .leaf) 8319 8319
  .leaf)) 8336 8348 (.node (.node (.node .leaf 8400 8432 .leaf) 11388 11389 .leaf) 11503 11505
  (.node (.node .leaf 11631 11631 .leaf) 11647 11647 .leaf))))))) 11744 11775 (.node (.node
  (.node (.node (.node (.node (.node (.node .leaf 11823 11823 .leaf) 12293 12293 (.node .leaf
  12330 12333 .leaf)) 12337 12341 (.node (.node .leaf 12347 12347 .leaf) 12441 12446 .leaf))
  12540 12542 (.node (.node (.node .leaf 40981 40981 .leaf) 42232 42237 (.node .leaf 42508
  42508 .leaf)) 42607 42610 (.node (.node .leaf 42612 42621 .leaf) 42623 42623 .leaf))) 42652
  42655 (.node (.node (.node (.node .leaf 42736 42737 .leaf) 42752 42785 (.node .leaf 42864
  42864 .leaf)) 42888 42890 (.node (.node .leaf 42994 42996 .leaf) 43000 43001 .leaf)) 43010
  43010 (.node (.node (.node .leaf 43014 43014 .leaf) 43019 43019 .leaf) 43045 43046 (.node
  (.node .leaf 43052 43052 .leaf) 43204 43205 .leaf)))) 43232 43249 (.node (.node (.node (.node
  (.node .leaf 43263 43263 .leaf) 43302 43309 (.node .leaf 43335 43345 .leaf)) 43392 43394
  (.node (.node .leaf 43443 43443 .leaf) 43446 43449 .leaf)) 43452 43453 (.node (.node (.node
  .leaf 43471 43471 .leaf) 43493 43494 (.node .leaf 43561 43566 .leaf)) 43569 43570 (.node
  (.node .leaf 43573 43574 .leaf) 43587 43587 .leaf))) 43596 43596 (.node (.node (.node (.node
  .leaf 43632 43632 .leaf) 43644 43644 (.node .leaf 43696 43696 .leaf)) 43698 43700 (.node
  (.node .leaf 43703 43704 .leaf) 43710 43711 .leaf)) 43713 43713 (.node (.node (.node .leaf
  43741 43741 .leaf) 43756 43757 .leaf) 43763 43764 (.node (.node .leaf 43766 43766 .leaf)
  43867 43871 .leaf))))) 43881 43883 (.node (.node (.node (.node (.node (.node .leaf 44005
  44005 .leaf) 44008 44008 (.node .leaf 44013 44013 .leaf)) 64286 64286 (.node (.node .leaf
  64434 64450 .leaf) 65024 65039 .leaf)) 65043 65043 (.node (.node (.node .leaf 65056 65071
  .leaf) 65106 65106 (.node .leaf 65109 65109 .leaf)) 65279 65279 (.node (.node .leaf 65287
  65287 .leaf) 65294 65294 .leaf))) 65306 65306 (.node (.node (.node (.node .leaf 65342 65342
  .leaf) 65344 65344 (.node .leaf 65392 65392 .leaf)) 65438 65439 (.node (.node .leaf 65507
  65507 .leaf) 65529 65531 .leaf)) 66045 66045 (.node (.node (.node .leaf 66272 66272 .leaf)
  66422 66426 .leaf) 67456 67461 (.node (.node .leaf 67463 67504 .leaf) 67506 67514 .leaf))))
  68097 68099 (.node (.node (.node (.node (.node .leaf 68101 68102 .leaf) 68108 68111 (.node
  .leaf 68152 68154 .leaf)) 68159 68159 (.node (.node .leaf 68325 68326 .leaf) 68900 68903
  .leaf)) 69291 69292 (.node (.node (.node .leaf 69446 69456 .leaf) 69506 69509 .leaf) 69633
  69633 (.node (.node .leaf 69688 69702 .leaf) 69744 69744 .leaf))) 69747 69748 (.node (.node
  (.node (.node .leaf 69759 69761 .leaf) 69811 69814 (.node .leaf 69817 69818 .leaf)) 69821
  69821 (.node (.node .leaf 69826 69826 .leaf) 69837 69837 .leaf)) 69888 69890 (.node (.node
  (.node .leaf 69927 69931 .leaf) 69933 69940 .leaf) 70003 70003 (.node (.node .leaf 70016
  70017 .leaf) 70070 70078 .leaf)))))) 70089 70092 (.node (.node (.node (.node (.node (.node
  (.node .leaf 70095 70095 .leaf) 70191 70193 (.node .leaf 70196 70196 .leaf)) 70198 70199
  (.node (.node .leaf 70206 70206 .leaf) 70367 70367 .leaf)) 70371 70378 (.node (.node (.node
  .leaf 70400 70401 .leaf) 70459 70460 (.node .leaf 70464 70464 .leaf)) 70502 70508 (.node
  (.node .leaf 70512 70516 .leaf) 70712 70719 .leaf))) 70722 70724 (.node (.node (.node (.node
  .leaf 70726 70726 .leaf) 70750 70750 (.node .leaf 70835 70840 .leaf)) 70842 70842 (.node
  (.node .leaf 70847 70848 .leaf) 70850 70851 .leaf)) 71090 71093 (.node (.node (.node .leaf
  71100 71101 .leaf) 71103 71104 .leaf) 71132 71133 (.node (.node .leaf 71219 71226 .leaf)
  71229 71229 .leaf)))) 71231 71232 (.node (.node (.node (.node (.node .leaf 71339 71339 .leaf)
  71341 71341 (.node .leaf 71344 71349 .leaf)) 71351 71351 (.node (.node .leaf 71453 71455
  .leaf) 71458 71461 .leaf)) 71463 71467 (.node (.node (.node .leaf 71727 71735 .leaf) 71737
  71738 (.node .leaf 71995 71996 .leaf)) 71998 71998 (.node (.node .leaf 72003 72003 .leaf)
  72148 72151 .leaf))) 72154 72155 (.node (.node (.node (.node .leaf 72160 72160 .leaf) 72193
  72202 (.node .leaf 72243 72248 .leaf)) 72251 72254 (.node (.node .leaf 72263 72263 .leaf)
  72273 72278 .leaf)) 72281 72283 (.node (.node (.node .leaf 72330 72342 .leaf) 72344 72345
  .leaf) 72752 72758 (.node (.node .leaf 72760 72765 .leaf) 72767 72767 .leaf))))) 72850 72871
  (.node (.node (.node (.node (.node (.node .leaf 72874 72880 .leaf) 72882 72883 (.node .leaf
  72885 72886 .leaf)) 73009 73014 (.node (.node .leaf 73018 73018 .leaf) 73020 73021 .leaf))
  73023 73029 (.node (.node (.node .leaf 73031 73031 .leaf) 73104 73105 (.node .leaf 73109
  73109 .leaf)) 73111 73111 (.node (.node .leaf 73459 73460 .leaf) 78896 78904 .leaf))) 92912
  92916 (.node (.node (.node (.node .leaf 92976 92982 .leaf) 92992 92995 (.node .leaf 94031
  94031 .leaf)) 94095 94111 (.node (.node .leaf 94176 94177 .leaf) 94179 94180 .leaf)) 110576
  110579 (.node (.node (.node .leaf 110581 110587 .leaf) 110589 110590 .leaf) 113821 113822
  (.node (.node .leaf 113824 113827 .leaf) 118528 118573 .leaf)))) 118576 118598 (.node (.node
  (.node (.node (.node .leaf 119143 119145 .leaf) 119155 119170 (.node .leaf 119173 119179
  .leaf)) 119210 119213 (.node (.node .leaf 119362 119364 .leaf) 121344 121398 .leaf)) 121403
  121452 (.node (.node (.node .leaf 121461 121461 .leaf) 121476 121476 .leaf) 121499 121503
  (.node (.node .leaf 121505 121519 .leaf) 122880 122886 .leaf))) 122888 122904 (.node (.node
  (.node (.node .leaf 122907 122913 .leaf) 122915 122916 (.node .leaf 122918 122922 .leaf))
  123184 123197 (.node (.node .leaf 123566 123566 .leaf) 123628 123631 .leaf)) 125136 125142
  (.node (.node (.node .leaf 125252 125259 .leaf) 127995 127999 .leaf) 917505 917505 (.node
  (.node .leaf 917536 917631 .leaf) 917760 917999 .leaf))))))))

/-- CPython's context-free lowercase mapping of one code point
(`_PyUnicode_ToLowerFull`): the table entry when there is one, the code
point itself otherwise. -/
def pyLowerChar (c : Nat) : List Nat :=
  (lowerTree.find c).getD [c]

/-- Unicode `Cased` (CPython `_PyUnicode_IsCased`). -/
def isCased (c : Nat) : Bool := casedTree.mem c

/-- Unicode `Case_Ignorable` (CPython `_PyUnicode_IsCaseIgnorable`). -/
def isCaseIgnorable (c : Nat) : Bool := caseIgnorableTree.mem c

/-- The first non-`Case_Ignorable` code point of a list, if any. -/
def skipCaseIgnorable : List Nat → Option Nat
  | [] => none
  | c :: cs => if isCaseIgnorable c then skipCaseIgnorable cs else some c

/-- CPython's Final_Sigma test (`handle_capital_sigma`): a capital sigma is
final when the nearest non-case-ignorable code point before it exists and
is cased, and the nearest one after it is absent or not cased. `before` is
the reversed prefix (nearest code point first), `after` the suffix. -/
def finalSigma (before after : List Nat) : Bool :=
  (match skipCaseIgnorable before with
   | none => false
   | some c => isCased c) &&
  (match skipCaseIgnorable after with
   | none => true
   | some c => !isCased c)

/-- One step of CPython's `do_lower`: the lowercase image of code point `c`
read in context — U+03A3 (931) becomes U+03C2 `ς` (962) in Final_Sigma
position and U+03C3 `σ` (963) otherwise, every other code point maps by
the context-free table. -/
def lowerBlock (before : List Nat) (c : Nat) (after : List Nat) : List Nat :=
  if c = 931 then [if finalSigma before after then 962 else 963]
  else pyLowerChar c

/-- Worker for `str.lower`: lowercase each code point in turn, carrying the
reversed prefix of code points already read as the sigma context. -/
def pyLowerAux (before : List Nat) : List Nat → List Nat
  | [] => []
  | c :: rest => lowerBlock before c rest ++ pyLowerAux (c :: before) rest

/-- Python `str.lower` on a whole string. -/
def pyLower (s : PyStr) : PyStr := pyLowerAux [] s

/-- A code point is lower-stable when it has no lowercase mapping and is
not capital sigma: `str.lower` leaves it unchanged in any context. -/
def lowerStable (c : Nat) : Bool := (lowerTree.find c).isNone && c != 931

/-- Python `token.strip(".,!?:;\x22\x27()[]\x7b\x7d<>")`: drop the longest
prefix and suffix of characters belonging to the strip set. -/
def pyStrip (s : PyStr) : PyStr :=
  ((s.dropWhile isPunct).reverse.dropWhile isPunct).reverse

/-- `tokenize` from test55.py: split the line on whitespace, keep the pieces
whose strip is non-empty, and return the strip of each, lowercased. -/
def tokenize (line : PyStr) : List PyStr :=
  (pySplit line).filterMap fun token =>
    if (pyStrip token).isEmpty then none
    else some (pyLower (pyStrip token))

/-- `collections.Counter` as an association list in key-insertion order. -/
abbrev PyCounter := List (PyStr × Nat)

/-- Add one occurrence of a token: increment its entry in place, or append a
fresh entry with count 1. -/
def counterAdd (ctr : PyCounter) (t : PyStr) : PyCounter :=
  match ctr with
  | [] => [(t, 1)]
  | (k, v) :: rest =>
    if k = t then (k, v + 1) :: rest else (k, v) :: counterAdd rest t

/-- `Counter.update(tokens)`: add each token in order. -/
def counterUpdate (ctr : PyCounter) (ts : List PyStr) : PyCounter :=
  ts.foldl counterAdd ctr

/-- The tuple returned by `text_stats`. -/
structure Stats where
  line_count : Nat
  word_count : Nat
  char_count : Nat
  counter : PyCounter
deriving Repr, DecidableEq

/-- The body of the `for line in lines` loop of `text_stats`. -/
def statsStep (st : Stats) (line : PyStr) : Stats :=
  let tokens := tokenize line
  { line_count := st.line_count + 1
    word_count := st.word_count + tokens.length
    char_count := st.char_count + line.length
    counter := counterUpdate st.counter tokens }

/-- `text_stats` from test55.py: one fold over the lines starting from all
counts zero and an empty counter. -/
def text_stats (lines : List PyStr) : Stats :=
  lines.foldl statsStep ⟨0, 0, 0, []⟩

/-- Insert an entry into a list already sorted by count descending, after
every entry of count greater than or equal to its own. -/
def insertByCount (x : PyStr × Nat) : PyCounter → PyCounter
  | [] => [x]
  | y :: ys => if x.2 < y.2 then y :: insertByCount x ys else x :: y :: ys

/-- Stable sort of counter entries by count descending: entries of equal
count keep their relative (insertion) order. -/
def sortByCountDesc (ctr : PyCounter) : PyCounter :=
  ctr.foldr insertByCount []

/-- `Counter.most_common(n)`: the `n` entries of largest count, ties broken
by insertion order (Python's `heapq.nlargest` decorates each item with its
position, so it agrees with a stable descending sort followed by a take). -/
def mostCommon (ctr : PyCounter) (n : Nat) : PyCounter :=
  (sortByCountDesc ctr).take n

/-- Python `repr` of a token (tokens hold no quote or escape characters, so
`repr` wraps the text in single quotes, code point 39). -/
def quoteRepr (t : PyStr) : String :=
  String.mk (Char.ofNat 39 :: t.map Char.ofNat ++ [Char.ofNat 39])

/-- `print_stats` from test55.py, as the list of lines written to standard
output. -/
def print_stats (st : Stats) : List String :=
  ["Lines: " ++ toString st.line_count,
   "Words: " ++ toString st.word_count,
   "Characters: " ++ toString st.char_count,
   "Top 5 words:"]
  ++ (mostCommon st.counter 5).map
      (fun e => "  " ++ quoteRepr e.1 ++ ": " ++ toString e.2)

/-- Result of a whole process run: the standard-output lines and the exit
status. -/
structure ProcResult where
  output : List String
  exit : Nat
deriving Repr, DecidableEq

/-- The interactive-stdin prompt printed by `main`. -/
def stdinPrompt : String :=
  "Reading from stdin. Type/paste text and press Ctrl-D (Unix) or Ctrl-Z (Windows) to end."

/-- `main` from test55.py. The file system is a partial map from path to the
file's lines; `none` means the path cannot be opened, in which case the
`IOError` raised inside `read_lines_from_file` propagates uncaught through
`main` and `raise SystemExit(main())`, so the interpreter terminates with
exit status 1 having printed no statistics. The guard mirrors Python's
`if args.path:`, which is falsy both when the argument is absent and when
it is the empty string, so an empty-string path argument falls back to
reading standard input. -/
def main (fs : String → Option (List PyStr)) (pathArg : Option String)
    (stdinLines : List PyStr) (stdinIsTty : Bool) : ProcResult :=
  if pathArg.getD "" ≠ "" then
    match fs (pathArg.getD "") with
    | none => { output := [], exit := 1 }
    | some ls => { output := print_stats (text_stats ls), exit := 0 }
  else
    let prompt := if stdinIsTty then [stdinPrompt] else []
    { output := prompt ++ print_stats (text_stats stdinLines), exit := 0 }

/-- Sum of all counts in a counter. -/
def counterTotal (ctr : PyCounter) : Nat := (ctr.map Prod.snd).sum

/-- The keys of a counter, in insertion order. -/
def counterKeys (ctr : PyCounter) : List PyStr := ctr.map Prod.fst

/-- The tokenizer as worded by the specification: split on runs of
whitespace, strip the fixed punctuation set from both ends of each piece,
lowercase the result, and discard the pieces that became empty after
stripping (lowercasing sends non-empty strings to non-empty strings, so
testing the lowered piece for emptiness is the same test). -/
def tokenize_spec (line : PyStr) : List PyStr :=
  ((pySplit line).map (fun piece => pyLower (pyStrip piece))).filter
    (fun t => !t.isEmpty)

set_option maxRecDepth 10000 in
lemma lowerTree_check :
    lowerTree.allNodes (fun _ vs =>
      !vs.isEmpty && vs.all (fun v =>
        (lowerTree.find v).isNone && v != 931 &&
        !isPunct v && !isPySpace v)) = true := by
  decide

lemma sigma_image_check :
    (lowerStable 962 && lowerStable 963 &&
     !isPunct 962 && !isPunct 963 && !isPySpace 962 && !isPySpace 963)
      = true := by
  decide

lemma allNodes_find {p : Nat → List Nat → Bool} :
    ∀ t : CaseTree, t.allNodes p = true →
      ∀ c vs, t.find c = some vs → p c vs = true := by
  intro t
  induction t with
  | leaf => intro _ c vs h; cases h
  | node l k vs0 r ihl ihr =>
    intro hall c vs h
    simp only [CaseTree.allNodes, Bool.and_eq_true] at hall
    obtain ⟨⟨hk, hl⟩, hr⟩ := hall
    simp only [CaseTree.find] at h
    by_cases h1 : c < k
    · rw [if_pos h1] at h
      exact ihl hl c vs h
    · rw [if_neg h1] at h
      by_cases h2 : k < c
      · rw [if_pos h2] at h
        exact ihr hr c vs h
      · rw [if_neg h2] at h
        rcases Option.some.inj h with rfl
        have hc : c = k := by omega
        rwa [hc]

lemma lowerTree_value_props {c : Nat} {vs : List Nat}
    (h : lowerTree.find c = some vs) :
    vs ≠ [] ∧ ∀ v ∈ vs, lowerStable v = true ∧
      isPunct v = false ∧ isPySpace v = false := by
  have := allNodes_find lowerTree lowerTree_check c vs h
  simp only [Bool.and_eq_true, List.all_eq_true, Bool.not_eq_true',
    List.isEmpty_eq_false_iff_exists_mem] at this
  obtain ⟨⟨x, hx⟩, hall⟩ := this
  refine ⟨fun hnil => by rw [hnil] at hx; exact List.not_mem_nil x hx, ?_⟩
  intro v hv
  obtain ⟨⟨hstable, hpunct⟩, hspace⟩ := hall v hv
  exact ⟨by simpa [lowerStable, Bool.and_eq_true] using hstable,
    hpunct, hspace⟩

lemma pyLowerChar_of_stable {c : Nat} (h : lowerStable c = true) :
    pyLowerChar c = [c] := by
  simp only [lowerStable, Bool.and_eq_true, Option.isNone_iff_eq_none] at h
  simp [pyLowerChar, h.1]

lemma lowerBlock_ne_nil (before : List Nat) (c : Nat) (after : List Nat) :
    lowerBlock before c after ≠ [] := by
  unfold lowerBlock
  by_cases hs : c = 931
  · rw [if_pos hs]
    simp
  · rw [if_neg hs]
    unfold pyLowerChar
    cases hf : lowerTree.find c with
    | none => simp
    | some vs =>
      simpa using (lowerTree_value_props hf).1

lemma mem_lowerBlock_stable {before : List Nat} {c : Nat}
    {after : List Nat} {v : Nat} (hv : v ∈ lowerBlock before c after) :
    lowerStable v = true := by
  unfold lowerBlock at hv
  by_cases hs : c = 931
  · rw [if_pos hs] at hv
    rcases List.mem_singleton.mp hv with rfl
    by_cases hf : finalSigma before after
    · rw [if_pos hf]
      have := sigma_image_check
      simp only [Bool.and_eq_true] at this
      exact this.1.1.1.1.1
    · rw [if_neg hf]
      have := sigma_image_check
      simp only [Bool.and_eq_true] at this
      exact this.1.1.1.1.2
  · rw [if_neg hs] at hv
    unfold pyLowerChar at hv
    cases hf : lowerTree.find c with
    | none =>
      rw [hf] at hv
      rcases List.mem_singleton.mp hv with rfl
      simp [lowerStable, hf, hs]
    | some vs =>
      rw [hf] at hv
      exact ((lowerTree_value_props hf).2 v hv).1

lemma mem_lowerBlock_nonpunct {before : List Nat} {c : Nat}
    {after : List Nat} {v : Nat} (hv : v ∈ lowerBlock before c after)
    (hc : isPunct c = false) : isPunct v = false := by
  unfold lowerBlock at hv
  by_cases hs : c = 931
  · rw [if_pos hs] at hv
    rcases List.mem_singleton.mp hv with rfl
    have := sigma_image_check
    simp only [Bool.and_eq_true, Bool.not_eq_true'] at this
    by_cases hf : finalSigma before after
    · rw [if_pos hf]; exact this.1.1.1.2
    · rw [if_neg hf]; exact this.1.1.2
  · rw [if_neg hs] at hv
    unfold pyLowerChar at hv
    cases hf : lowerTree.find c with
    | none =>
      rw [hf] at hv
      rcases List.mem_singleton.mp hv with rfl
      exact hc
    | some vs =>
      rw [hf] at hv
      exact ((lowerTree_value_props hf).2 v hv).2.1

lemma mem_lowerBlock_nonspace {before : List Nat} {c : Nat}
    {after : List Nat} {v : Nat} (hv : v ∈ lowerBlock before c after)
    (hc : isPySpace c = false) : isPySpace v = false := by
  unfold lowerBlock at hv
  by_cases hs : c = 931
  · rw [if_pos hs] at hv
    rcases List.mem_singleton.mp hv with rfl
    have := sigma_image_check
    simp only [Bool.and_eq_true, Bool.not_eq_true'] at this
    by_cases hf : finalSigma before after
    · rw [if_pos hf]; exact this.2
    · rw [if_neg hf]; exact this.1.2
  · rw [if_neg hs] at hv
    unfold pyLowerChar at hv
    cases hf : lowerTree.find c with
    | none =>
      rw [hf] at hv
      rcases List.mem_singleton.mp hv with rfl
      exact hc
    | some vs =>
      rw [hf] at hv
      exact ((lowerTree_value_props hf).2 v hv).2.2

lemma pyLowerAux_ne_nil (before : List Nat) (c : Nat) (rest : List Nat) :
    pyLowerAux before (c :: rest) ≠ [] := by
  show lowerBlock before c rest ++ _ ≠ []
  simp only [ne_eq, List.append_eq_nil, not_and]
  intro hb
  exact absurd hb (lowerBlock_ne_nil before c rest)

lemma pyLower_eq_nil_iff (s : PyStr) : pyLower s = [] ↔ s = [] := by
  constructor
  · intro h
    cases s with
    | nil => rfl
    | cons c rest => exact absurd h (pyLowerAux_ne_nil [] c rest)
  · intro h
    rw [h]
    rfl

lemma filterMap_strip_eq (l : List PyStr) :
    (l.filterMap fun token =>
        if (pyStrip token).isEmpty then none
        else some (pyLower (pyStrip token)))
      = (l.map (fun piece => pyLower (pyStrip piece))).filter
          (fun t => !t.isEmpty) := by
  induction l with
  | nil => rfl
  | cons a l ih =>
    simp only [List.filterMap_cons, List.map_cons, List.filter_cons]
    by_cases h : (pyStrip a).isEmpty
    · have h2 : (pyLower (pyStrip a)).isEmpty = true := by
        rw [List.isEmpty_iff, pyLower_eq_nil_iff]
        exact List.isEmpty_iff.mp h
      rw [if_pos h, ih]
      simp [h2]
    · have h2 : (pyLower (pyStrip a)).isEmpty = false := by
        rw [List.isEmpty_eq_false, ne_eq, pyLower_eq_nil_iff]
        exact List.isEmpty_eq_false.mp (Bool.eq_false_iff.mpr h)
      rw [if_neg h, ih]
      simp [h2]

/-- **C2.** The tokenizer splits the line on runs of whitespace, strips the
fixed punctuation set from both ends of each piece, lowercases it, and
discards pieces that are empty after stripping, keeping left-to-right
order; in particular tokenizing `"Hello, world!!"` yields
`["hello", "world"]`. -/
theorem tokenize_matches_spec :
    (∀ line : PyStr, tokenize line = tokenize_spec line) ∧
    tokenize (str "Hello, world!!") = [str "hello", str "world"] := by
  constructor
  · intro line
    exact filterMap_strip_eq (pySplit line)
  · decide

/-- The two-line demo input `"the cat sat on the mat\nthe cat ran\n"`. -/
def demoLines : List PyStr :=
  [str "the cat sat on the mat\n", str "the cat ran\n"]

/-- **C4 counterexample.** On the demo input the word count is 9, not 8 as
the claim states (the first line has six words and the second has three). -/
theorem demo_word_count_not_eight :
    (text_stats demoLines).word_count = 9 ∧
    (text_stats demoLines).word_count ≠ 8 := by
  decide

/-- **C4 amended.** On the demo input the aggregator produces line count 2,
word count 9, and the ranking starts with `"the"` at count 3 followed by
`"cat"` at count 2. -/
theorem demo_stats :
    (text_stats demoLines).line_count = 2 ∧
    (text_stats demoLines).word_count = 9 ∧
    (mostCommon (text_stats demoLines).counter 5).take 2 =
      [(str "the", 3), (str "cat", 2)] := by
  decide

/-- **C5.** Empty input is a valid run: all counts are zero, the frequency
mapping is empty, and the reporter prints the three count lines at zero and
the `Top 5 words:` header with no entry lines after it. -/
theorem empty_input_stats :
    text_stats [] = ⟨0, 0, 0, []⟩ ∧
    print_stats (text_stats []) =
      ["Lines: 0", "Words: 0", "Characters: 0", "Top 5 words:"] := by
  constructor
  · rfl
  · rfl

/-- **C8 counterexample.** An empty-string path argument is unopenable
(`open("")` raises), yet the program does not fail: Python's `if args.path:`
is falsy on `""`, so the run falls back to standard input, prints
statistics and exits 0 — against a file system with no openable files the
claim's promised non-zero exit and empty output both fail. -/
theorem main_empty_path_not_error :
    (main (fun _ => none) (some "") [] false).exit = 0 ∧
    (main (fun _ => none) (some "") [] false).output ≠ [] := by
  constructor
  · rfl
  · decide

/-- **C8 amended.** When the path argument is non-empty and names an
unopenable file, the I/O error propagates uncaught: the process exits with
a non-zero status and prints no statistics output (an empty-string
argument instead falls back to standard input, because `if args.path:` is
falsy on the empty string). -/
theorem main_missing_file (fs : String → Option (List PyStr)) (p : String)
    (stdin : List PyStr) (tty : Bool) (hp : p ≠ "") (h : fs p = none) :
    (main fs (some p) stdin tty).output = [] ∧
    (main fs (some p) stdin tty).exit ≠ 0 := by
  have hguard : (some p).getD "" ≠ "" := hp
  rw [main, if_pos hguard]
  have hg2 : (some p).getD "" = p := rfl
  rw [hg2, h]
  exact ⟨rfl, Nat.one_ne_zero⟩

/-- Witness for `main_missing_file` at a concrete non-empty path and a file
system with no openable files. -/
theorem main_missing_file_witness :
    (main (fun _ => none) (some "nope.txt") [] false).output = [] ∧
    (main (fun _ => none) (some "nope.txt") [] false).exit ≠ 0 :=
  main_missing_file (fun _ => none) "nope.txt" [] false (by decide) rfl

lemma counterTotal_cons (k : PyStr) (v : Nat) (l : PyCounter) :
    counterTotal ((k, v) :: l) = v + counterTotal l := rfl

lemma counterTotal_counterAdd (ctr : PyCounter) (t : PyStr) :
    counterTotal (counterAdd ctr t) = counterTotal ctr + 1 := by
  induction ctr with
  | nil => rfl
  | cons kv rest ih =>
    obtain ⟨k, v⟩ := kv
    by_cases hk : k = t
    · simp only [counterAdd, if_pos hk, counterTotal_cons]
      omega
    · simp only [counterAdd, if_neg hk, counterTotal_cons, ih]
      omega

lemma counterTotal_counterUpdate (ts : List PyStr) (ctr : PyCounter) :
    counterTotal (counterUpdate ctr ts) = counterTotal ctr + ts.length := by
  induction ts generalizing ctr with
  | nil => simp [counterUpdate]
  | cons t ts ih =>
    show counterTotal (counterUpdate (counterAdd ctr t) ts) = _
    rw [ih, counterTotal_counterAdd]
    simp
    omega

lemma foldl_word_eq_total (lines : List PyStr) :
    ∀ st : Stats, st.word_count = counterTotal st.counter →
      (lines.foldl statsStep st).word_count
        = counterTotal (lines.foldl statsStep st).counter := by
  induction lines with
  | nil => intro st h; simpa using h
  | cons l lines ih =>
    intro st h
    rw [List.foldl_cons]
    apply ih
    show st.word_count + (tokenize l).length = _
    rw [h]
    exact (counterTotal_counterUpdate (tokenize l) st.counter).symm

/-- **C1.** For every finite sequence of input lines, the word count
returned by `text_stats` equals the sum of all counts in the frequency
mapping it returns. -/
theorem text_stats_word_count_eq_counter_total (lines : List PyStr) :
    (text_stats lines).word_count
      = counterTotal (text_stats lines).counter :=
  foldl_word_eq_total lines ⟨0, 0, 0, []⟩ rfl

lemma foldl_char_line (lines : List PyStr) :
    ∀ st : Stats,
      (lines.foldl statsStep st).char_count
          = st.char_count + (lines.map List.length).sum ∧
      (lines.foldl statsStep st).line_count
          = st.line_count + lines.length := by
  induction lines with
  | nil => intro st; simp
  | cons l lines ih =>
    intro st
    rw [List.foldl_cons]
    obtain ⟨h1, h2⟩ := ih (statsStep st l)
    refine ⟨?_, ?_⟩
    · rw [h1]
      show st.char_count + l.length + _ = _
      simp
      omega
    · rw [h2]
      show st.line_count + 1 + _ = _
      simp
      omega

/-- **C6.** The character count equals the sum of the full lengths of the
lines (terminator included), the line count equals the number of lines, and
each loop iteration adds exactly 1 to the line count and exactly the line's
length to the character count. -/
theorem text_stats_line_char_counts (lines : List PyStr) :
    (text_stats lines).char_count = (lines.map List.length).sum ∧
    (text_stats lines).line_count = lines.length ∧
    (∀ (st : Stats) (line : PyStr),
      (statsStep st line).line_count = st.line_count + 1 ∧
      (statsStep st line).char_count = st.char_count + line.length) := by
  obtain ⟨h1, h2⟩ := foldl_char_line lines ⟨0, 0, 0, []⟩
  exact ⟨by simpa using h1, by simpa using h2, fun st line => ⟨rfl, rfl⟩⟩

lemma mem_counterKeys_counterAdd (ctr : PyCounter) (t k : PyStr) :
    k ∈ counterKeys (counterAdd ctr t) ↔ k ∈ counterKeys ctr ∨ k = t := by
  induction ctr with
  | nil => simp [counterAdd, counterKeys]
  | cons kv rest ih =>
    obtain ⟨k0, v⟩ := kv
    by_cases hk : k0 = t
    · subst hk
      simp only [counterAdd, eq_self_iff_true, if_true, counterKeys,
        List.map_cons, List.mem_cons]
      tauto
    · simp only [counterAdd, if_neg hk, counterKeys, List.map_cons,
        List.mem_cons]
      rw [show (List.map Prod.fst (counterAdd rest t)) =
            counterKeys (counterAdd rest t) from rfl, ih]
      simp only [counterKeys]
      tauto

lemma counterAdd_pos (ctr : PyCounter) (t : PyStr)
    (h : ∀ kv ∈ ctr, 1 ≤ kv.2) :
    ∀ kv ∈ counterAdd ctr t, 1 ≤ kv.2 := by
  induction ctr with
  | nil =>
    intro kv hkv
    simp only [counterAdd, List.mem_singleton] at hkv
    subst hkv; exact le_refl 1
  | cons kv0 rest ih =>
    obtain ⟨k0, v⟩ := kv0
    intro kv hkv
    by_cases hk : k0 = t
    · simp only [counterAdd, if_pos hk, List.mem_cons] at hkv
      rcases hkv with rfl | hkv
      · simp
      · exact h kv (List.mem_cons_of_mem _ hkv)
    · simp only [counterAdd, if_neg hk, List.mem_cons] at hkv
      rcases hkv with rfl | hkv
      · exact h (k0, v) (List.mem_cons_self _ _)
      · exact ih (fun x hx => h x (List.mem_cons_of_mem _ hx)) kv hkv

lemma counterUpdate_pos (ts : List PyStr) (ctr : PyCounter)
    (h : ∀ kv ∈ ctr, 1 ≤ kv.2) :
    ∀ kv ∈ counterUpdate ctr ts, 1 ≤ kv.2 := by
  induction ts generalizing ctr with
  | nil => exact h
  | cons t ts ih => exact ih (counterAdd ctr t) (counterAdd_pos ctr t h)

lemma mem_counterKeys_counterUpdate (ts : List PyStr) (ctr : PyCounter)
    (k : PyStr) :
    k ∈ counterKeys (counterUpdate ctr ts)
      ↔ k ∈ counterKeys ctr ∨ k ∈ ts := by
  induction ts generalizing ctr with
  | nil => simp [counterUpdate]
  | cons t ts ih =>
    show k ∈ counterKeys (counterUpdate (counterAdd ctr t) ts) ↔ _
    rw [ih, mem_counterKeys_counterAdd]
    simp only [List.mem_cons]
    tauto

lemma foldl_counter_pos (lines : List PyStr) :
    ∀ st : Stats, (∀ kv ∈ st.counter, 1 ≤ kv.2) →
      ∀ kv ∈ (lines.foldl statsStep st).counter, 1 ≤ kv.2 := by
  induction lines with
  | nil => intro st h; simpa using h
  | cons l lines ih =>
    intro st h
    rw [List.foldl_cons]
    exact ih (statsStep st l) (counterUpdate_pos (tokenize l) st.counter h)

lemma foldl_counter_keys (lines : List PyStr) :
    ∀ (st : Stats) (k : PyStr),
      k ∈ counterKeys (lines.foldl statsStep st).counter
        ↔ k ∈ counterKeys st.counter ∨ k ∈ (lines.map tokenize).flatten := by
  induction lines with
  | nil => intro st k; simp
  | cons l lines ih =>
    intro st k
    rw [List.foldl_cons, ih]
    show (k ∈ counterKeys (counterUpdate st.counter (tokenize l)) ∨ _) ↔ _
    rw [mem_counterKeys_counterUpdate]
    simp only [List.map_cons, List.flatten_cons, List.mem_append]
    tauto

/-- **C10.** Every key of the frequency mapping returned by `text_stats`
has count at least 1, and the key set is exactly the set of tokens produced
from the input lines. -/
theorem text_stats_counter_sound (lines : List PyStr) :
    (∀ kv ∈ (text_stats lines).counter, 1 ≤ kv.2) ∧
    (∀ k : PyStr,
      k ∈ counterKeys (text_stats lines).counter
        ↔ k ∈ (lines.map tokenize).flatten) := by
  constructor
  · exact foldl_counter_pos lines ⟨0, 0, 0, []⟩ (by simp)
  · intro k
    rw [show text_stats lines = lines.foldl statsStep ⟨0, 0, 0, []⟩ from rfl,
      foldl_counter_keys lines ⟨0, 0, 0, []⟩ k]
    simp [counterKeys]

/-- Witness for `text_stats_counter_sound` on the one-line input
`"a a"`: the key `"a"` really is in the mapping, with a count of at
least 1. -/
theorem text_stats_counter_sound_witness :
    (1 : Nat) ≤ 2 ∧ str "a" ∈ counterKeys (text_stats [str "a a"]).counter :=
  ⟨(text_stats_counter_sound [str "a a"]).1 (str "a", 2) (by decide),
   ((text_stats_counter_sound [str "a a"]).2 (str "a")).mpr (by decide)⟩

lemma mem_splitWsAux :
    ∀ (s acc : List Nat) (w : PyStr), w ∈ splitWsAux s acc →
      ∀ c ∈ w, c ∈ s ∨ c ∈ acc := by
  intro s
  induction s with
  | nil =>
    intro acc w hw c hc
    unfold splitWsAux at hw
    by_cases ha : acc.isEmpty
    · rw [if_pos ha] at hw
      exact absurd hw (List.not_mem_nil w)
    · rw [if_neg ha] at hw
      rcases List.mem_singleton.mp hw with rfl
      exact Or.inr (List.mem_reverse.mp hc)
  | cons a s ih =>
    intro acc w hw c hc
    unfold splitWsAux at hw
    by_cases hsp : isPySpace a
    · rw [if_pos hsp] at hw
      by_cases ha : acc.isEmpty
      · rw [if_pos ha] at hw
        rcases ih [] w hw c hc with h | h
        · exact Or.inl (List.mem_cons_of_mem _ h)
        · exact absurd h (List.not_mem_nil c)
      · rw [if_neg ha] at hw
        rcases List.mem_cons.mp hw with rfl | hw'
        · exact Or.inr (List.mem_reverse.mp hc)
        · rcases ih [] w hw' c hc with h | h
          · exact Or.inl (List.mem_cons_of_mem _ h)
          · exact absurd h (List.not_mem_nil c)
    · rw [if_neg hsp] at hw
      rcases ih (a :: acc) w hw c hc with h | h
      · exact Or.inl (List.mem_cons_of_mem _ h)
      · rcases List.mem_cons.mp h with rfl | h'
        · exact Or.inl (List.mem_cons_self _ _)
        · exact Or.inr h'

lemma mem_of_mem_pySplit {line : PyStr} {w : PyStr} (hw : w ∈ pySplit line) :
    ∀ c ∈ w, c ∈ line := by
  intro c hc
  rcases mem_splitWsAux line [] w hw c hc with h | h
  · exact h
  · exact absurd h (List.not_mem_nil c)

lemma pyStrip_eq_nil_of_all_punct {s : PyStr}
    (h : ∀ c ∈ s, isPunct c = true) : pyStrip s = [] := by
  have h1 : s.dropWhile isPunct = [] := List.dropWhile_eq_nil_iff.mpr h
  simp [pyStrip, h1]

/-- **C3 counterexample.** Tokenizing the line `"---!!!"` does not yield
the empty list: `-` is not in the strip set, so the token `"---"`
survives. -/
theorem tokenize_dashes_not_nil :
    tokenize (str "---!!!") = [str "---"] ∧
    tokenize (str "---!!!") ≠ [] := by
  decide

/-- **C3 amended.** Tokenizing a line consisting only of characters of the
fixed strip set `.,!?:;"'()[]{}<>` yields no tokens (the example
`"---!!!"` is not such a line, since `-` is not in the set; e.g. the line
`"!!!???"` yields the empty list, see the witness). -/
theorem tokenize_only_strip_set (line : PyStr)
    (h : ∀ c ∈ line, isPunct c = true) : tokenize line = [] := by
  unfold tokenize
  rw [List.filterMap_eq_nil_iff]
  intro token htok
  have hall : ∀ c ∈ token, isPunct c = true :=
    fun c hc => h c (mem_of_mem_pySplit htok c hc)
  rw [if_pos]
  rw [pyStrip_eq_nil_of_all_punct hall]
  rfl

/-- Witness for `tokenize_only_strip_set`: the line `"!!!???"` is all
strip-set characters and tokenizes to the empty list. -/
theorem tokenize_only_strip_set_witness : tokenize (str "!!!???") = [] :=
  tokenize_only_strip_set (str "!!!???") (by decide)

/-- Entry `a` ranks at least as high as entry `b`: its count is no
smaller. -/
def rankGE (a b : PyStr × Nat) : Prop := b.2 ≤ a.2

instance : DecidableRel rankGE := fun a b => Nat.decLe b.2 a.2

lemma mem_insertByCount (x : PyStr × Nat) (l : PyCounter) (a : PyStr × Nat) :
    a ∈ insertByCount x l ↔ a = x ∨ a ∈ l := by
  induction l with
  | nil => simp [insertByCount]
  | cons y ys ih =>
    unfold insertByCount
    by_cases hc : x.2 < y.2
    · rw [if_pos hc]
      simp only [List.mem_cons, ih]
      tauto
    · rw [if_neg hc]
      simp only [List.mem_cons]

lemma perm_insertByCount (x : PyStr × Nat) (l : PyCounter) :
    List.Perm (insertByCount x l) (x :: l) := by
  induction l with
  | nil => exact List.Perm.refl _
  | cons y ys ih =>
    unfold insertByCount
    by_cases hc : x.2 < y.2
    · rw [if_pos hc]
      exact (List.Perm.cons y ih).trans (List.Perm.swap x y ys)
    · rw [if_neg hc]

lemma sortByCountDesc_perm (ctr : PyCounter) :
    List.Perm (sortByCountDesc ctr) ctr := by
  induction ctr with
  | nil => rfl
  | cons a l ih =>
    show List.Perm (insertByCount a (sortByCountDesc l)) (a :: l)
    exact (perm_insertByCount a (sortByCountDesc l)).trans (List.Perm.cons a ih)

lemma pairwise_insertByCount (x : PyStr × Nat) (l : PyCounter)
    (h : List.Pairwise rankGE l) :
    List.Pairwise rankGE (insertByCount x l) := by
  induction l with
  | nil => simp [insertByCount, List.pairwise_singleton]
  | cons y ys ih =>
    rcases List.pairwise_cons.mp h with ⟨hy, hys⟩
    unfold insertByCount
    by_cases hc : x.2 < y.2
    · rw [if_pos hc]
      refine List.pairwise_cons.mpr ⟨?_, ih hys⟩
      intro a ha
      rcases (mem_insertByCount x ys a).mp ha with rfl | ha'
      · exact le_of_lt hc
      · exact hy a ha'
    · rw [if_neg hc]
      refine List.pairwise_cons.mpr ⟨?_, h⟩
      intro a ha
      rcases List.mem_cons.mp ha with rfl | ha'
      · exact Nat.le_of_not_lt hc
      · exact le_trans (hy a ha') (Nat.le_of_not_lt hc)

lemma sortByCountDesc_sorted (ctr : PyCounter) :
    List.Pairwise rankGE (sortByCountDesc ctr) := by
  induction ctr with
  | nil => exact List.Pairwise.nil
  | cons a l ih => exact pairwise_insertByCount a (sortByCountDesc l) ih

lemma filter_insertByCount_ne (x : PyStr × Nat) (l : PyCounter) (n : Nat)
    (hx : (x.2 == n) = false) :
    (insertByCount x l).filter (fun e => e.2 == n)
      = l.filter (fun e => e.2 == n) := by
  induction l with
  | nil => simp [insertByCount, hx]
  | cons y ys ih =>
    unfold insertByCount
    by_cases hc : x.2 < y.2
    · rw [if_pos hc]
      rw [List.filter_cons, List.filter_cons, ih]
    · rw [if_neg hc]
      rw [List.filter_cons, hx]
      rfl

lemma filter_insertByCount_eq (x : PyStr × Nat) (l : PyCounter) (n : Nat)
    (hx : x.2 = n) (hl : List.Pairwise rankGE l) :
    (insertByCount x l).filter (fun e => e.2 == n)
      = x :: l.filter (fun e => e.2 == n) := by
  induction l with
  | nil => simp [insertByCount, hx]
  | cons y ys ih =>
    rcases List.pairwise_cons.mp hl with ⟨_, hys⟩
    unfold insertByCount
    by_cases hc : x.2 < y.2
    · rw [if_pos hc]
      have hy : (y.2 == n) = false := by
        rw [beq_eq_false_iff_ne]
        omega
      rw [List.filter_cons, hy, List.filter_cons, hy]
      exact ih hys
    · rw [if_neg hc]
      rw [List.filter_cons, show (x.2 == n) = true from by simp [hx]]
      rfl

lemma sortByCountDesc_stable (ctr : PyCounter) (n : Nat) :
    (sortByCountDesc ctr).filter (fun e => e.2 == n)
      = ctr.filter (fun e => e.2 == n) := by
  induction ctr with
  | nil => rfl
  | cons a l ih =>
    show (insertByCount a (sortByCountDesc l)).filter _ = _
    by_cases ha : (a.2 == n) = true
    · rw [filter_insertByCount_eq a (sortByCountDesc l) n
        (beq_iff_eq.mp ha) (sortByCountDesc_sorted l)]
      rw [ih, List.filter_cons, ha]
      rfl
    · rw [filter_insertByCount_ne a (sortByCountDesc l) n
        (Bool.eq_false_iff.mpr ha)]
      rw [ih, List.filter_cons, Bool.eq_false_iff.mpr ha]
      rfl

/-- **C7.** The reporter emits, after the three count lines and the
`Top 5 words:` header, at most five entry lines, exactly
`min 5 (number of distinct tokens)` of them; they are the entries of the
frequency mapping sorted by count descending with ties kept in insertion
order (the sort is a permutation of the mapping, its counts are
non-increasing, and entries of equal count keep their original relative
order); an empty mapping produces the header with no entry lines. -/
theorem print_stats_top5 (lc wc cc : Nat) (ctr : PyCounter) :
    (print_stats ⟨lc, wc, cc, ctr⟩).length = 4 + min 5 ctr.length ∧
    print_stats ⟨lc, wc, cc, ctr⟩ =
      ["Lines: " ++ toString lc, "Words: " ++ toString wc,
       "Characters: " ++ toString cc, "Top 5 words:"]
      ++ (mostCommon ctr 5).map
          (fun e => "  " ++ quoteRepr e.1 ++ ": " ++ toString e.2) ∧
    List.Pairwise rankGE (mostCommon ctr 5) ∧
    List.Perm (sortByCountDesc ctr) ctr ∧
    (∀ n : Nat, (sortByCountDesc ctr).filter (fun e => e.2 == n)
      = ctr.filter (fun e => e.2 == n)) ∧
    print_stats ⟨lc, wc, cc, []⟩ =
      ["Lines: " ++ toString lc, "Words: " ++ toString wc,
       "Characters: " ++ toString cc, "Top 5 words:"] := by
  refine ⟨?_, rfl, ?_, sortByCountDesc_perm ctr, sortByCountDesc_stable ctr,
    rfl⟩
  · show (_ ++ (mostCommon ctr 5).map _).length = _
    rw [List.length_append, List.length_map, mostCommon,
      List.length_take, (sortByCountDesc_perm ctr).length_eq]
    rfl
  · exact List.Pairwise.sublist (List.take_sublist 5 (sortByCountDesc ctr))
      (sortByCountDesc_sorted ctr)

lemma splitWsAux_pieces :
    ∀ (s acc : List Nat), (∀ c ∈ acc, isPySpace c = false) →
      ∀ w ∈ splitWsAux s acc, w ≠ [] ∧ ∀ c ∈ w, isPySpace c = false := by
  intro s
  induction s with
  | nil =>
    intro acc hacc w hw
    unfold splitWsAux at hw
    by_cases ha : acc.isEmpty
    · rw [if_pos ha] at hw
      exact absurd hw (List.not_mem_nil w)
    · rw [if_neg ha] at hw
      rcases List.mem_singleton.mp hw with rfl
      refine ⟨?_, fun c hc => hacc c (List.mem_reverse.mp hc)⟩
      intro hnil
      have hacc_ne : acc ≠ [] := fun h => ha (by rw [h]; rfl)
      exact hacc_ne (List.reverse_eq_nil_iff.mp hnil)
  | cons a s ih =>
    intro acc hacc w hw
    unfold splitWsAux at hw
    by_cases hsp : isPySpace a
    · rw [if_pos hsp] at hw
      by_cases ha : acc.isEmpty
      · rw [if_pos ha] at hw
        exact ih [] (by simp) w hw
      · rw [if_neg ha] at hw
        rcases List.mem_cons.mp hw with rfl | hw'
        · refine ⟨?_, fun c hc => hacc c (List.mem_reverse.mp hc)⟩
          intro hnil
          have hacc_ne : acc ≠ [] := fun h => ha (by rw [h]; rfl)
          exact hacc_ne (List.reverse_eq_nil_iff.mp hnil)
        · exact ih [] (by simp) w hw'
    · rw [if_neg hsp] at hw
      refine ih (a :: acc) ?_ w hw
      intro c hc
      rcases List.mem_cons.mp hc with rfl | hc'
      · exact Bool.eq_false_iff.mpr hsp
      · exact hacc c hc'

lemma pySplit_pieces {line w : PyStr} (hw : w ∈ pySplit line) :
    w ≠ [] ∧ ∀ c ∈ w, isPySpace c = false :=
  splitWsAux_pieces line [] (by simp) w hw

lemma splitWsAux_all_nonspace :
    ∀ (s acc : List Nat), (∀ c ∈ s, isPySpace c = false) →
      acc.reverse ++ s ≠ [] → splitWsAux s acc = [acc.reverse ++ s] := by
  intro s
  induction s with
  | nil =>
    intro acc _ hne
    unfold splitWsAux
    rw [if_neg]
    · simp
    · simp only [List.append_nil] at hne
      simp [List.isEmpty_iff]
      intro h
      exact hne (by simp [h])
  | cons a s ih =>
    intro acc hs _
    unfold splitWsAux
    rw [if_neg (by simp [hs a (List.mem_cons_self a s)])]
    rw [ih (a :: acc) (fun c hc => hs c (List.mem_cons_of_mem a hc))
      (by simp)]
    simp

lemma pySplit_single (s : PyStr) (h1 : s ≠ [])
    (h2 : ∀ c ∈ s, isPySpace c = false) : pySplit s = [s] := by
  have := splitWsAux_all_nonspace s [] h2 (by simpa using h1)
  simpa [pySplit] using this

lemma dropWhile_head_false (p : Nat → Bool) :
    ∀ (l : List Nat) (c : Nat), (l.dropWhile p).head? = some c →
      p c = false := by
  intro l
  induction l with
  | nil => intro c hc; cases hc
  | cons a l ih =>
    intro c hc
    by_cases pa : p a
    · rw [List.dropWhile_cons, if_pos pa] at hc
      exact ih c hc
    · rw [List.dropWhile_cons, if_neg pa] at hc
      rcases Option.some.inj hc with rfl
      exact Bool.eq_false_iff.mpr pa

lemma dropWhile_eq_self_of_head (p : Nat → Bool) (l : List Nat)
    (h : ∀ c, l.head? = some c → p c = false) : l.dropWhile p = l := by
  cases l with
  | nil => rfl
  | cons a l =>
    rw [List.dropWhile_cons, if_neg]
    rw [h a rfl]
    simp

lemma dropWhile_getLast (p : Nat → Bool) :
    ∀ l : List Nat, l.dropWhile p ≠ [] →
      (l.dropWhile p).getLast? = l.getLast? := by
  intro l
  induction l with
  | nil => intro h; exact absurd rfl h
  | cons a l ih =>
    intro h
    by_cases pa : p a
    · rw [List.dropWhile_cons, if_pos pa] at h ⊢
      cases l with
      | nil => exact absurd rfl h
      | cons b l' => rw [List.getLast?_cons_cons]; exact ih h
    · rw [List.dropWhile_cons, if_neg pa]

lemma pyStrip_head_false (s : PyStr) (c : Nat)
    (h : (pyStrip s).head? = some c) : isPunct c = false := by
  unfold pyStrip at h
  rw [List.head?_reverse] at h
  have hne : (s.dropWhile isPunct).reverse.dropWhile isPunct ≠ [] := by
    intro hnil
    rw [hnil] at h
    cases h
  rw [dropWhile_getLast isPunct _ hne, List.getLast?_reverse] at h
  exact dropWhile_head_false isPunct s c h

lemma pyStrip_getLast_false (s : PyStr) (c : Nat)
    (h : (pyStrip s).getLast? = some c) : isPunct c = false := by
  unfold pyStrip at h
  rw [List.getLast?_reverse] at h
  exact dropWhile_head_false isPunct (s.dropWhile isPunct).reverse c h

lemma pyStrip_mem (s : PyStr) : ∀ c ∈ pyStrip s, c ∈ s := by
  intro c hc
  unfold pyStrip at hc
  rw [List.mem_reverse] at hc
  have h1 := (List.dropWhile_sublist (l := (s.dropWhile isPunct).reverse)
    isPunct).mem hc
  rw [List.mem_reverse] at h1
  exact (List.dropWhile_sublist (l := s) isPunct).mem h1

lemma pyStrip_eq_self (s : PyStr)
    (h1 : ∀ c, s.head? = some c → isPunct c = false)
    (h2 : ∀ c, s.getLast? = some c → isPunct c = false) :
    pyStrip s = s := by
  unfold pyStrip
  rw [dropWhile_eq_self_of_head isPunct s h1]
  rw [dropWhile_eq_self_of_head isPunct s.reverse
    (fun c hc => h2 c (by rwa [List.head?_reverse] at hc))]
  exact List.reverse_reverse s

lemma mem_pyLowerAux_stable :
    ∀ (s before : List Nat), ∀ v ∈ pyLowerAux before s,
      lowerStable v = true := by
  intro s
  induction s with
  | nil => intro before v hv; exact absurd hv (List.not_mem_nil v)
  | cons c rest ih =>
    intro before v hv
    have hv' : v ∈ lowerBlock before c rest ++ pyLowerAux (c :: before) rest :=
      hv
    rcases List.mem_append.mp hv' with hb | hr
    · exact mem_lowerBlock_stable hb
    · exact ih (c :: before) v hr

lemma mem_pyLowerAux_nonspace :
    ∀ (s before : List Nat), (∀ d ∈ s, isPySpace d = false) →
      ∀ v ∈ pyLowerAux before s, isPySpace v = false := by
  intro s
  induction s with
  | nil => intro before _ v hv; exact absurd hv (List.not_mem_nil v)
  | cons c rest ih =>
    intro before hs v hv
    have hv' : v ∈ lowerBlock before c rest ++ pyLowerAux (c :: before) rest :=
      hv
    rcases List.mem_append.mp hv' with hb | hr
    · exact mem_lowerBlock_nonspace hb (hs c (List.mem_cons_self c rest))
    · exact ih (c :: before) (fun d hd => hs d (List.mem_cons_of_mem c hd))
        v hr

lemma pyLowerAux_of_stable :
    ∀ (s before : List Nat), (∀ c ∈ s, lowerStable c = true) →
      pyLowerAux before s = s := by
  intro s
  induction s with
  | nil => intro before _; rfl
  | cons c rest ih =>
    intro before hstable
    have hc := hstable c (List.mem_cons_self c rest)
    have hc931 : ¬ c = 931 := by
      simp only [lowerStable, Bool.and_eq_true, bne_iff_ne, ne_eq] at hc
      exact hc.2
    show lowerBlock before c rest ++ pyLowerAux (c :: before) rest = c :: rest
    rw [lowerBlock, if_neg hc931, pyLowerChar_of_stable hc]
    rw [ih (c :: before) (fun d hd => hstable d (List.mem_cons_of_mem c hd))]
    rfl

lemma head?_pyLowerAux_punct (before : List Nat) :
    ∀ s : List Nat, (∀ c, s.head? = some c → isPunct c = false) →
      ∀ v, (pyLowerAux before s).head? = some v → isPunct v = false := by
  intro s
  cases s with
  | nil => intro _ v hv; cases hv
  | cons c rest =>
    intro hs v hv
    have hc : isPunct c = false := hs c rfl
    have hv' :
        (lowerBlock before c rest ++ pyLowerAux (c :: before) rest).head?
          = some v := hv
    rw [List.head?_append] at hv'
    cases hblock : lowerBlock before c rest with
    | nil => exact absurd hblock (lowerBlock_ne_nil before c rest)
    | cons b bs =>
      rw [hblock] at hv'
      have hbv : b = v := Option.some.inj hv'
      have hmem : v ∈ lowerBlock before c rest := by
        rw [hblock, ← hbv]
        exact List.mem_cons_self b bs
      exact mem_lowerBlock_nonpunct hmem hc

lemma mem_of_getLast_opt :
    ∀ (l : List Nat) (a : Nat), l.getLast? = some a → a ∈ l := by
  intro l
  induction l with
  | nil => intro a h; cases h
  | cons x xs ih =>
    intro a h
    cases xs with
    | nil =>
      simp only [List.getLast?_singleton] at h
      rcases Option.some.inj h with rfl
      exact List.mem_singleton_self x
    | cons y ys =>
      rw [List.getLast?_cons_cons] at h
      exact List.mem_cons_of_mem x (ih a h)

lemma getLast_opt_append_right (l l' : List Nat) (h : l' ≠ []) :
    (l ++ l').getLast? = l'.getLast? := by
  rw [List.getLast?_append]
  cases l' with
  | nil => exact absurd rfl h
  | cons y ys =>
    rw [List.getLast?_cons]
    rfl

lemma getLast_pyLowerAux_punct :
    ∀ s before : List Nat, (∀ c, s.getLast? = some c → isPunct c = false) →
      ∀ v, (pyLowerAux before s).getLast? = some v → isPunct v = false := by
  intro s
  induction s with
  | nil => intro before _ v hv; cases hv
  | cons c rest ih =>
    intro before hs v hv
    have hv' :
        (lowerBlock before c rest ++ pyLowerAux (c :: before) rest).getLast?
          = some v := hv
    cases rest with
    | nil =>
      have hc : isPunct c = false := hs c (by simp)
      rw [show pyLowerAux (c :: before) ([] : List Nat) = [] from rfl,
        List.append_nil] at hv'
      exact mem_lowerBlock_nonpunct (mem_of_getLast_opt _ v hv') hc
    | cons r rest' =>
      rw [getLast_opt_append_right _ _
        (pyLowerAux_ne_nil (c :: before) r rest')] at hv'
      refine ih (c :: before) ?_ v hv'
      intro d hd
      refine hs d ?_
      rw [List.getLast?_cons_cons]
      exact hd

/-- **C9.** The tokenizer is idempotent on its own outputs: every token
produced from any line tokenizes to the one-element list holding itself
(tokens are non-empty, contain no whitespace, have no strip-set characters
at either end, and are fixed by lowercasing). -/
theorem tokenize_idempotent (line t : PyStr) (ht : t ∈ tokenize line) :
    tokenize t = [t] := by
  unfold tokenize at ht
  rcases List.mem_filterMap.mp ht with ⟨w, hw, hfw⟩
  by_cases he : (pyStrip w).isEmpty
  · rw [if_pos he] at hfw
    cases hfw
  · rw [if_neg he] at hfw
    have ht_eq : t = pyLower (pyStrip w) := (Option.some.inj hfw).symm
    have hs0_ne : pyStrip w ≠ [] := by
      simpa [List.isEmpty_iff] using he
    have hw_nonspace : ∀ c ∈ w, isPySpace c = false := (pySplit_pieces hw).2
    have hs0_nonspace : ∀ c ∈ pyStrip w, isPySpace c = false :=
      fun c hc => hw_nonspace c (pyStrip_mem w c hc)
    have ht_ne : t ≠ [] := by
      rw [ht_eq, ne_eq, pyLower_eq_nil_iff]
      exact hs0_ne
    have ht_stable : ∀ c ∈ t, lowerStable c = true := by
      rw [ht_eq]
      intro c hc
      exact mem_pyLowerAux_stable (pyStrip w) [] c hc
    have ht_nonspace : ∀ c ∈ t, isPySpace c = false := by
      rw [ht_eq]
      intro c hc
      exact mem_pyLowerAux_nonspace (pyStrip w) [] hs0_nonspace c hc
    have hsplit : pySplit t = [t] := pySplit_single t ht_ne ht_nonspace
    have hhead : ∀ c, t.head? = some c → isPunct c = false := by
      intro c hc
      rw [ht_eq] at hc
      exact head?_pyLowerAux_punct [] (pyStrip w)
        (fun d hd => pyStrip_head_false w d hd) c hc
    have hlast : ∀ c, t.getLast? = some c → isPunct c = false := by
      intro c hc
      rw [ht_eq] at hc
      exact getLast_pyLowerAux_punct (pyStrip w) []
        (fun d hd => pyStrip_getLast_false w d hd) c hc
    have hstrip : pyStrip t = t := pyStrip_eq_self t hhead hlast
    have hlower : pyLower t = t := pyLowerAux_of_stable t [] ht_stable
    unfold tokenize
    rw [hsplit]
    rw [List.filterMap_cons]
    rw [hstrip, List.isEmpty_eq_false.mpr ht_ne]
    simp [hlower]

/-- Witness for `tokenize_idempotent`: `"hello"` is a token of
`"Hello, world!!"` and tokenizes to itself. -/
theorem tokenize_idempotent_witness : tokenize (str "hello") = [str "hello"] :=
  tokenize_idempotent (str "Hello, world!!") (str "hello") (by decide)

end TextStats
